import Mathlib

/-!
Verification development for the Cross-Chain Freelance Escrow repository.

Shallow embedding of:
* `ethereum-contracts/src/AccorDefiEscrow.sol` (namespace `Evm`)
* `sui-contracts/sources/escrow.move`          (namespace `SuiM`)
* `ethereum-contracts/src/AccorDefiBridge.sol` (namespace `Bridge`)
* `backend/src/indexers/evm.ts` / `sui.ts` milestone handlers (namespace `Mirror`)

Money amounts are natural numbers in minor units (the contracts use uint256 /
u64 and never reach overflow in the scenarios considered; checked-arithmetic
underflow aborts are modelled as explicit errors).  Value transfers performed
by an operation are returned as an explicit list of `Payout`s.
-/

namespace AccorDefi

/-- Chain account addresses, abstracted to naturals. -/
abbrev Address := Nat

/-- Milestone status, shared by the two contracts
(`MilestoneStatus` enum in Solidity, the `MILESTONE_*` u8 codes in Move). -/
inductive MilestoneStatus
  | Pending
  | InProgress
  | Submitted
  | Approved
  | Disputed
  | Released
  | Refunded
deriving DecidableEq

/-- Escrow status, shared by the two contracts
(`EscrowStatus` enum in Solidity, the `ESCROW_*` u8 codes in Move). -/
inductive EscrowStatus
  | Active
  | Completed
  | Disputed
  | Cancelled
  | Refunded
deriving DecidableEq

/-- A value transfer performed by an operation: a direct native-coin transfer
to an address, or a cross-chain bridge initiation carrying value to a Sui
recipient (`bridge.initiateBridge{value: ...}` in the Solidity contract). -/
inductive Payout
  | direct (dest : Address) (amount : Nat)
  | bridgeInit (suiRecipient : Nat) (amount : Nat)
deriving DecidableEq

/-- `MILESTONE_RELEASED` / `MILESTONE_REFUNDED` are the two terminal milestone
statuses (the statuses `_checkEscrowCompletion` / `check_escrow_completion`
treat as complete). -/
def MilestoneStatus.isTerminal : MilestoneStatus → Bool
  | .Released => true
  | .Refunded => true
  | _ => false

/-- Milestone record (`Milestone` struct, identical fields on both chains). -/
structure Milestone where
  id : Nat
  description : String
  amount : Nat
  status : MilestoneStatus
  deadline : Nat
  submissionNote : String
  submittedAt : Nat
deriving DecidableEq

/-- The milestone list built by the creation loop: index `i` receives
`id = i`, the `i`-th description/amount/deadline, status Pending. -/
def mkMilestones (descs : List String) (amounts : List Nat) (deadlines : List Nat) :
    List Milestone :=
  (List.range descs.length).map (fun i =>
    { id := i
      description := descs.getD i ""
      amount := amounts.getD i 0
      status := .Pending
      deadline := deadlines.getD i 0
      submissionNote := ""
      submittedAt := 0 })

namespace Evm

/-- `Escrow` struct of `AccorDefiEscrow.sol`. -/
structure Escrow where
  id : Nat
  client : Address
  freelancer : Address
  title : String
  description : String
  totalAmount : Nat
  balance : Nat
  status : EscrowStatus
  currentMilestone : Nat
  createdAt : Nat
  updatedAt : Nat
  suiRecipient : Nat
  crossChain : Bool
deriving DecidableEq

/-- `Dispute` struct of `AccorDefiEscrow.sol`.  The Solidity mapping
`disputes[escrowId]` defaults to the all-zero struct, so `initiatedAt = 0`
encodes "no dispute" exactly as the contract's `initiatedAt == 0` test. -/
structure Dispute where
  initiatedBy : Address
  initiatedAt : Nat
  reason : String
  milestoneId : Nat
  votesForClient : Nat
  votesForFreelancer : Nat
  resolved : Bool
  resolutionNote : String
deriving DecidableEq

/-- The all-zero default of the `disputes` mapping. -/
def Dispute.empty : Dispute :=
  { initiatedBy := 0, initiatedAt := 0, reason := "", milestoneId := 0
    votesForClient := 0, votesForFreelancer := 0, resolved := false
    resolutionNote := "" }

/-- Per-escrow slice of the contract storage: `escrows[id]`,
`escrowMilestones[id]`, `disputes[id]` and the set
`{a | hasVoted[id][a]}` (all storage keyed by this escrow's id). -/
structure EState where
  escrow : Escrow
  milestones : List Milestone
  dispute : Dispute
  voted : List Address
deriving DecidableEq

/-- Contract-level configuration read by the operations:
`feeBps`, `treasury` and the arbiter registry `isArbiter`. -/
structure Config where
  feeBps : Nat
  treasury : Address
  arbiters : List Address
deriving DecidableEq

/-- Revert reasons of `AccorDefiEscrow.sol` (`require` messages, plus
checked-arithmetic/bounds panics folded into the matching constructor). -/
inductive Err
  | NotClient
  | NotFreelancer
  | NotParty
  | NotArbiter
  | EscrowNotActive
  | NoMilestones
  | ArrayLengthMismatch
  | InsufficientPayment
  | InvalidMilestone
  | MilestoneNotPending
  | MilestoneNotSubmitted
  | MilestoneNotApproved
  | InsufficientBalance
  | DisputeExists
  | NoActiveDispute
  | DisputeResolved
  | AlreadyVoted
  | CannotRefund
  | NoBalance
deriving DecidableEq

/-- `MIN_ARBITERS` constant. -/
def MIN_ARBITERS : Nat := 3

/-- `PLATFORM_FEE_BPS` constant (1%). -/
def PLATFORM_FEE_BPS : Nat := 100

/-- `_checkEscrowCompletion`: if every milestone is Released or Refunded the
escrow becomes Completed, otherwise nothing changes. -/
def checkEscrowCompletion (st : EState) : EState :=
  if st.milestones.all (fun m => m.status.isTerminal) then
    { st with escrow := { st.escrow with status := .Completed } }
  else st

/-- `createEscrow`.  `escrowId` stands for the `++totalEscrows` counter value;
`now` for `block.timestamp`; `msgValue` for `msg.value`.  Note the contract
stores `balance: msg.value` and then refunds the excess `msg.value - total`
by a call, and performs no zero-amount check on milestones. -/
def createEscrow (sender freelancer : Address) (title descr : String)
    (milestoneDescriptions : List String) (milestoneAmounts : List Nat)
    (milestoneDeadlines : List Nat) (suiRecipient : Nat) (crossChain : Bool)
    (msgValue now escrowId : Nat) : Except Err (EState × List Payout) :=
  if milestoneDescriptions.length = 0 then .error .NoMilestones
  else if ¬(milestoneDescriptions.length = milestoneAmounts.length ∧
            milestoneAmounts.length = milestoneDeadlines.length) then
    .error .ArrayLengthMismatch
  else
    let total := milestoneAmounts.sum
    if msgValue < total then .error .InsufficientPayment
    else
      let escrow : Escrow :=
        { id := escrowId, client := sender, freelancer := freelancer
          title := title, description := descr
          totalAmount := total, balance := msgValue, status := .Active
          currentMilestone := 0, createdAt := now, updatedAt := now
          suiRecipient := suiRecipient, crossChain := crossChain }
      let st : EState :=
        { escrow := escrow
          milestones := mkMilestones milestoneDescriptions milestoneAmounts milestoneDeadlines
          dispute := Dispute.empty
          voted := [] }
      let payouts := if total < msgValue then [Payout.direct sender (msgValue - total)] else []
      .ok (st, payouts)

/-- `submitMilestone` (modifiers `onlyFreelancer`, `escrowActive`). -/
def submitMilestone (caller : Address) (milestoneId : Nat) (note : String)
    (now : Nat) (st : EState) : Except Err (EState × List Payout) :=
  if caller ≠ st.escrow.freelancer then .error .NotFreelancer
  else if st.escrow.status ≠ .Active then .error .EscrowNotActive
  else match st.milestones[milestoneId]? with
    | none => .error .InvalidMilestone
    | some m =>
      if m.status = .Pending ∨ m.status = .InProgress then
        let m' := { m with status := .Submitted, submissionNote := note, submittedAt := now }
        .ok ({ st with milestones := st.milestones.set milestoneId m'
                       escrow := { st.escrow with updatedAt := now } }, [])
      else .error .MilestoneNotPending

/-- `approveMilestone` (modifiers `onlyClient`, `escrowActive`). -/
def approveMilestone (caller : Address) (milestoneId : Nat) (now : Nat)
    (st : EState) : Except Err (EState × List Payout) :=
  if caller ≠ st.escrow.client then .error .NotClient
  else if st.escrow.status ≠ .Active then .error .EscrowNotActive
  else match st.milestones[milestoneId]? with
    | none => .error .InvalidMilestone
    | some m =>
      if m.status = .Submitted then
        .ok ({ st with milestones := st.milestones.set milestoneId { m with status := .Approved }
                       escrow := { st.escrow with updatedAt := now } }, [])
      else .error .MilestoneNotSubmitted

/-- `releaseMilestone` (modifiers `onlyClient`, `escrowActive`):
fee = amount * feeBps / 10000 in floor division; `amount - fee` to the
freelancer directly, or bridged cross-chain; `fee` to the treasury when
nonzero; milestone becomes Released; balance decreases by `amount`;
then the completion check runs. -/
def releaseMilestone (cfg : Config) (caller : Address) (milestoneId : Nat)
    (now : Nat) (st : EState) : Except Err (EState × List Payout) :=
  if caller ≠ st.escrow.client then .error .NotClient
  else if st.escrow.status ≠ .Active then .error .EscrowNotActive
  else match st.milestones[milestoneId]? with
    | none => .error .InvalidMilestone
    | some m =>
      if m.status = .Approved then
        if st.escrow.balance < m.amount then .error .InsufficientBalance
        else
          let amount := m.amount
          let fee := amount * cfg.feeBps / 10000
          let freelancerAmount := amount - fee
          let payPrimary :=
            if st.escrow.crossChain then Payout.bridgeInit st.escrow.suiRecipient freelancerAmount
            else Payout.direct st.escrow.freelancer freelancerAmount
          let payouts := if 0 < fee then [payPrimary, Payout.direct cfg.treasury fee]
                         else [payPrimary]
          let st' : EState :=
            { st with milestones := st.milestones.set milestoneId { m with status := .Released }
                      escrow := { st.escrow with balance := st.escrow.balance - amount
                                                 updatedAt := now } }
          .ok (checkEscrowCompletion st', payouts)
      else .error .MilestoneNotApproved

/-- `initiateDispute` (modifiers `onlyParty`, `escrowActive`).  The contract
checks the milestone index bound, then `disputes[escrowId].initiatedAt == 0`,
and sets the milestone's status to Disputed with NO check on its current
status. -/
def initiateDispute (caller : Address) (milestoneId : Nat) (reason : String)
    (now : Nat) (st : EState) : Except Err (EState × List Payout) :=
  if ¬(caller = st.escrow.client ∨ caller = st.escrow.freelancer) then .error .NotParty
  else if st.escrow.status ≠ .Active then .error .EscrowNotActive
  else match st.milestones[milestoneId]? with
    | none => .error .InvalidMilestone
    | some m =>
      if st.dispute.initiatedAt ≠ 0 then .error .DisputeExists
      else
        let d : Dispute :=
          { initiatedBy := caller, initiatedAt := now, reason := reason
            milestoneId := milestoneId, votesForClient := 0, votesForFreelancer := 0
            resolved := false, resolutionNote := "" }
        .ok ({ st with milestones := st.milestones.set milestoneId { m with status := .Disputed }
                       dispute := d
                       escrow := { st.escrow with status := .Disputed, updatedAt := now } }, [])

/-- `_resolveDispute`: client-majority refunds the milestone (no transfer);
otherwise the milestone is Released, the balance drops by `amount`
(the checked subtraction's underflow revert is surfaced as
InsufficientBalance) and funds move as in `releaseMilestone`.  The dispute
latches `resolved := true`, the escrow returns to Active, and the completion
check runs. -/
def resolveDispute (cfg : Config) (now : Nat) (st : EState) :
    Except Err (EState × List Payout) :=
  let d := st.dispute
  match st.milestones[d.milestoneId]? with
  | none => .error .InvalidMilestone
  | some m =>
    if d.votesForClient > d.votesForFreelancer then
      let d' := { d with resolved := true, resolutionNote := "Resolved in favor of client" }
      let st' : EState :=
        { st with milestones := st.milestones.set d.milestoneId { m with status := .Refunded }
                  dispute := d'
                  escrow := { st.escrow with status := .Active, updatedAt := now } }
      .ok (checkEscrowCompletion st', [])
    else
      if st.escrow.balance < m.amount then .error .InsufficientBalance
      else
        let amount := m.amount
        let fee := amount * cfg.feeBps / 10000
        let freelancerAmount := amount - fee
        let payPrimary :=
          if st.escrow.crossChain then Payout.bridgeInit st.escrow.suiRecipient freelancerAmount
          else Payout.direct st.escrow.freelancer freelancerAmount
        let payouts := if 0 < fee then [payPrimary, Payout.direct cfg.treasury fee]
                       else [payPrimary]
        let d' := { d with resolved := true, resolutionNote := "Resolved in favor of freelancer" }
        let st' : EState :=
          { st with milestones := st.milestones.set d.milestoneId { m with status := .Released }
                    dispute := d'
                    escrow := { st.escrow with status := .Active
                                               balance := st.escrow.balance - amount
                                               updatedAt := now } }
        .ok (checkEscrowCompletion st', payouts)

/-- `voteDispute` (modifier `onlyArbiter`): records the vote, bumps the tally
and resolves as soon as the total reaches `MIN_ARBITERS`. -/
def voteDispute (cfg : Config) (caller : Address) (voteForClient : Bool)
    (now : Nat) (st : EState) : Except Err (EState × List Payout) :=
  if caller ∉ cfg.arbiters then .error .NotArbiter
  else if st.escrow.status ≠ .Disputed then .error .NoActiveDispute
  else if st.dispute.resolved then .error .DisputeResolved
  else if caller ∈ st.voted then .error .AlreadyVoted
  else
    let d := st.dispute
    let d' := if voteForClient then { d with votesForClient := d.votesForClient + 1 }
              else { d with votesForFreelancer := d.votesForFreelancer + 1 }
    let st' : EState := { st with dispute := d', voted := caller :: st.voted }
    if d'.votesForClient + d'.votesForFreelancer ≥ MIN_ARBITERS then
      resolveDispute cfg now st'
    else .ok (st', [])

/-- `refundToClient` (modifier `onlyClient`). -/
def refundToClient (caller : Address) (now : Nat) (st : EState) :
    Except Err (EState × List Payout) :=
  if caller ≠ st.escrow.client then .error .NotClient
  else if st.escrow.status = .Cancelled ∨ st.escrow.status = .Refunded then
    if st.escrow.balance = 0 then .error .NoBalance
    else .ok ({ st with escrow := { st.escrow with balance := 0, updatedAt := now } },
              [Payout.direct st.escrow.client st.escrow.balance])
  else .error .CannotRefund

/-- The external state-mutating entry points on an existing escrow. -/
inductive EOp
  | submit (caller : Address) (milestoneId : Nat) (note : String) (now : Nat)
  | approve (caller : Address) (milestoneId : Nat) (now : Nat)
  | release (caller : Address) (milestoneId : Nat) (now : Nat)
  | openDispute (caller : Address) (milestoneId : Nat) (reason : String) (now : Nat)
  | vote (caller : Address) (forClient : Bool) (now : Nat)
  | refund (caller : Address) (now : Nat)
deriving DecidableEq

/-- Dispatch an entry point. -/
def stepOp (cfg : Config) (st : EState) : EOp → Except Err (EState × List Payout)
  | .submit caller milestoneId note now => submitMilestone caller milestoneId note now st
  | .approve caller milestoneId now => approveMilestone caller milestoneId now st
  | .release caller milestoneId now => releaseMilestone cfg caller milestoneId now st
  | .openDispute caller milestoneId reason now => initiateDispute caller milestoneId reason now st
  | .vote caller forClient now => voteDispute cfg caller forClient now st
  | .refund caller now => refundToClient caller now st

/-- A reverted transaction leaves the chain state unchanged. -/
def runOp (cfg : Config) (st : EState) (op : EOp) : EState :=
  match stepOp cfg st op with
  | .ok (st', _) => st'
  | .error _ => st

/-- Run a sequence of transactions, each applying or reverting. -/
def runOps (cfg : Config) (st : EState) (ops : List EOp) : EState :=
  ops.foldl (runOp cfg) st

/-- Status of milestone `i`, if it exists. -/
def EState.statusAt (st : EState) (i : Nat) : Option MilestoneStatus :=
  (st.milestones[i]?).map Milestone.status

end Evm

namespace SuiM

/-- `Dispute` struct of `escrow.move` (with an explicit voter vector). -/
structure Dispute where
  initiatedBy : Address
  initiatedAt : Nat
  reason : String
  milestoneId : Nat
  votesForClient : Nat
  votesForFreelancer : Nat
  voters : List Address
  resolved : Bool
  resolutionNote : String
deriving DecidableEq

/-- The shared `Escrow` object of `escrow.move`.  `dispute` is the
`Option<Dispute>` field; `balance` the value of the `Balance<SUI>` field. -/
structure SEscrow where
  escrowId : Nat
  client : Address
  freelancer : Address
  title : String
  description : String
  totalAmount : Nat
  balance : Nat
  milestones : List Milestone
  currentMilestone : Nat
  status : EscrowStatus
  dispute : Option Dispute
  arbiters : List Address
  createdAt : Nat
  updatedAt : Nat
  sourceChain : String
  sourceTxHash : String
deriving DecidableEq

/-- `PlatformConfig` shared object (arbiter registry abstracted to the list
of registered addresses). -/
structure Config where
  admin : Address
  feeBps : Nat
  treasury : Address
  arbiterRegistry : List Address
deriving DecidableEq

/-- Abort codes of `escrow.move`. -/
inductive Err
  | ENotClient
  | ENotFreelancer
  | ENotArbiter
  | EInvalidMilestone
  | EMilestoneNotPending
  | EMilestoneNotApproved
  | EInsufficientFunds
  | EEscrowNotActive
  | EEscrowAlreadyDisputed
  | EDisputeNotActive
  | EAlreadyVoted
  | ENoMilestones
deriving DecidableEq

/-- `MIN_ARBITERS` constant. -/
def MIN_ARBITERS : Nat := 3

/-- `check_escrow_completion`. -/
def checkEscrowCompletion (e : SEscrow) : SEscrow :=
  if e.milestones.all (fun m => m.status.isTerminal) then { e with status := .Completed }
  else e

/-- `create_escrow`: the WHOLE payment coin is moved into the escrow balance
(`coin::into_balance(payment)`); no excess refund exists on this chain.
No zero-amount check is performed on the milestones. -/
def create_escrow (totalEscrows : Nat) (sender freelancer : Address)
    (title descr : String) (milestoneDescriptions : List String)
    (milestoneAmounts : List Nat) (milestoneDeadlines : List Nat)
    (sourceChain sourceTxHash : String) (payment now : Nat) :
    Except Err (SEscrow × List Payout) :=
  let milestoneCount := milestoneDescriptions.length
  if milestoneCount = 0 then .error .ENoMilestones
  else if milestoneCount ≠ milestoneAmounts.length then .error .EInvalidMilestone
  else if milestoneCount ≠ milestoneDeadlines.length then .error .EInvalidMilestone
  else
    let totalAmount := milestoneAmounts.sum
    if payment < totalAmount then .error .EInsufficientFunds
    else
      let e : SEscrow :=
        { escrowId := totalEscrows + 1, client := sender, freelancer := freelancer
          title := title, description := descr
          totalAmount := totalAmount, balance := payment
          milestones := mkMilestones milestoneDescriptions milestoneAmounts milestoneDeadlines
          currentMilestone := 0, status := .Active, dispute := none
          arbiters := [], createdAt := now, updatedAt := now
          sourceChain := sourceChain, sourceTxHash := sourceTxHash }
      .ok (e, [])

/-- `submit_milestone`. -/
def submit_milestone (sender : Address) (milestoneId : Nat) (note : String)
    (now : Nat) (e : SEscrow) : Except Err (SEscrow × List Payout) :=
  if sender ≠ e.freelancer then .error .ENotFreelancer
  else if e.status ≠ .Active then .error .EEscrowNotActive
  else match e.milestones[milestoneId]? with
    | none => .error .EInvalidMilestone
    | some m =>
      if m.status = .Pending ∨ m.status = .InProgress then
        let m' := { m with status := .Submitted, submissionNote := note, submittedAt := now }
        .ok ({ e with milestones := e.milestones.set milestoneId m', updatedAt := now }, [])
      else .error .EMilestoneNotPending

/-- `approve_milestone`. -/
def approve_milestone (sender : Address) (milestoneId : Nat) (now : Nat)
    (e : SEscrow) : Except Err (SEscrow × List Payout) :=
  if sender ≠ e.client then .error .ENotClient
  else if e.status ≠ .Active then .error .EEscrowNotActive
  else match e.milestones[milestoneId]? with
    | none => .error .EInvalidMilestone
    | some m =>
      if m.status = .Submitted then
        .ok ({ e with milestones := e.milestones.set milestoneId { m with status := .Approved }
                      updatedAt := now }, [])
      else .error .EMilestoneNotPending

/-- `release_milestone`: client or platform admin may release an Approved
milestone; the balance is split into `amount - fee` for the freelancer and
`fee` for the treasury (both splits together remove exactly `amount`). -/
def release_milestone (cfg : Config) (sender : Address) (milestoneId : Nat)
    (now : Nat) (e : SEscrow) : Except Err (SEscrow × List Payout) :=
  if ¬(sender = e.client ∨ sender = cfg.admin) then .error .ENotClient
  else if e.status ≠ .Active then .error .EEscrowNotActive
  else match e.milestones[milestoneId]? with
    | none => .error .EInvalidMilestone
    | some m =>
      if m.status = .Approved then
        let amount := m.amount
        if e.balance < amount then .error .EInsufficientFunds
        else
          let fee := amount * cfg.feeBps / 10000
          let freelancerAmount := amount - fee
          let payouts := if 0 < fee then
              [Payout.direct e.freelancer freelancerAmount, Payout.direct cfg.treasury fee]
            else [Payout.direct e.freelancer freelancerAmount]
          let balance' := if 0 < fee then e.balance - freelancerAmount - fee
                          else e.balance - freelancerAmount
          let e' : SEscrow :=
            { e with milestones := e.milestones.set milestoneId { m with status := .Released }
                     balance := balance', updatedAt := now }
          .ok (checkEscrowCompletion e', payouts)
      else .error .EMilestoneNotApproved

/-- `initiate_dispute`: the `option::is_none(&escrow.dispute)` check precedes
the milestone-bound check, and the milestone's current status is NOT
examined before it is stamped Disputed. -/
def initiate_dispute (sender : Address) (milestoneId : Nat) (reason : String)
    (now : Nat) (e : SEscrow) : Except Err (SEscrow × List Payout) :=
  if ¬(sender = e.client ∨ sender = e.freelancer) then .error .ENotClient
  else if e.status ≠ .Active then .error .EEscrowNotActive
  else if e.dispute.isSome then .error .EEscrowAlreadyDisputed
  else match e.milestones[milestoneId]? with
    | none => .error .EInvalidMilestone
    | some m =>
      let d : Dispute :=
        { initiatedBy := sender, initiatedAt := now, reason := reason
          milestoneId := milestoneId, votesForClient := 0, votesForFreelancer := 0
          voters := [], resolved := false, resolutionNote := "" }
      .ok ({ e with milestones := e.milestones.set milestoneId { m with status := .Disputed }
                    dispute := some d, status := .Disputed, updatedAt := now }, [])

/-- `resolve_dispute_internal`: client-majority refunds the milestone; on a
freelancer win the transfers happen only under the explicit balance
conditionals of the source.  The dispute stays in the Option with
`resolved := true` and the escrow returns to Active before the completion
check. -/
def resolve_dispute_internal (cfg : Config) (now : Nat) (e : SEscrow) :
    Except Err (SEscrow × List Payout) :=
  match e.dispute with
  | none => .error .EDisputeNotActive
  | some d =>
    match e.milestones[d.milestoneId]? with
    | none => .error .EInvalidMilestone
    | some m =>
      let amount := m.amount
      if d.votesForClient > d.votesForFreelancer then
        let d' := { d with resolved := true, resolutionNote := "Resolved in favor of client" }
        let e' : SEscrow :=
          { e with milestones := e.milestones.set d.milestoneId { m with status := .Refunded }
                   dispute := some d', status := .Active, updatedAt := now }
        .ok (checkEscrowCompletion e', [])
      else
        let fee := amount * cfg.feeBps / 10000
        let freelancerAmount := amount - fee
        let paidMain := freelancerAmount ≤ e.balance
        let balanceAfterMain := if paidMain then e.balance - freelancerAmount else e.balance
        let paidFee := paidMain ∧ 0 < fee ∧ fee ≤ balanceAfterMain
        let balance' := if paidFee then balanceAfterMain - fee else balanceAfterMain
        let payouts :=
          if paidFee then [Payout.direct e.freelancer freelancerAmount,
                           Payout.direct cfg.treasury fee]
          else if paidMain then [Payout.direct e.freelancer freelancerAmount]
          else []
        let d' := { d with resolved := true, resolutionNote := "Resolved in favor of freelancer" }
        let e' : SEscrow :=
          { e with milestones := e.milestones.set d.milestoneId { m with status := .Released }
                   dispute := some d', status := .Active, balance := balance', updatedAt := now }
        .ok (checkEscrowCompletion e', payouts)

/-- `vote_dispute`: status and Option checks, arbiter-registry check, the
linear voter scan for double voting, the tally update, and auto-resolution
once the total reaches `MIN_ARBITERS`. -/
def vote_dispute (cfg : Config) (sender : Address) (voteForClient : Bool)
    (now : Nat) (e : SEscrow) : Except Err (SEscrow × List Payout) :=
  if e.status ≠ .Disputed then .error .EDisputeNotActive
  else match e.dispute with
    | none => .error .EDisputeNotActive
    | some d =>
      if sender ∉ cfg.arbiterRegistry then .error .ENotArbiter
      else if d.resolved then .error .EDisputeNotActive
      else if sender ∈ d.voters then .error .EAlreadyVoted
      else
        let d' :=
          if voteForClient then
            { d with voters := d.voters ++ [sender], votesForClient := d.votesForClient + 1 }
          else
            { d with voters := d.voters ++ [sender]
                     votesForFreelancer := d.votesForFreelancer + 1 }
        let e' : SEscrow := { e with dispute := some d', updatedAt := now }
        if d'.votesForClient + d'.votesForFreelancer ≥ MIN_ARBITERS then
          resolve_dispute_internal cfg now e'
        else .ok (e', [])

/-- `refund_to_client`: no-op (still a success) when the balance is zero. -/
def refund_to_client (sender : Address) (now : Nat) (e : SEscrow) :
    Except Err (SEscrow × List Payout) :=
  if sender ≠ e.client then .error .ENotClient
  else if ¬(e.status = .Cancelled ∨ e.status = .Refunded) then .error .EEscrowNotActive
  else
    let remaining := e.balance
    if 0 < remaining then
      .ok ({ e with balance := 0, updatedAt := now }, [Payout.direct e.client remaining])
    else .ok (e, [])

/-- The entry points that mutate an existing Sui escrow object. -/
inductive SOp
  | submit (sender : Address) (milestoneId : Nat) (note : String) (now : Nat)
  | approve (sender : Address) (milestoneId : Nat) (now : Nat)
  | release (sender : Address) (milestoneId : Nat) (now : Nat)
  | openDispute (sender : Address) (milestoneId : Nat) (reason : String) (now : Nat)
  | vote (sender : Address) (forClient : Bool) (now : Nat)
  | refund (sender : Address) (now : Nat)
deriving DecidableEq

/-- Dispatch an entry point. -/
def stepOp (cfg : Config) (e : SEscrow) : SOp → Except Err (SEscrow × List Payout)
  | .submit sender milestoneId note now => submit_milestone sender milestoneId note now e
  | .approve sender milestoneId now => approve_milestone sender milestoneId now e
  | .release sender milestoneId now => release_milestone cfg sender milestoneId now e
  | .openDispute sender milestoneId reason now => initiate_dispute sender milestoneId reason now e
  | .vote sender forClient now => vote_dispute cfg sender forClient now e
  | .refund sender now => refund_to_client sender now e

/-- An aborted transaction leaves the object unchanged. -/
def runOp (cfg : Config) (e : SEscrow) (op : SOp) : SEscrow :=
  match stepOp cfg e op with
  | .ok (e', _) => e'
  | .error _ => e

/-- Run a sequence of transactions, each applying or aborting. -/
def runOps (cfg : Config) (e : SEscrow) (ops : List SOp) : SEscrow :=
  ops.foldl (runOp cfg) e

/-- Status of milestone `i`, if it exists. -/
def SEscrow.statusAt (e : SEscrow) (i : Nat) : Option MilestoneStatus :=
  (e.milestones[i]?).map Milestone.status

end SuiM

namespace Bridge

/-- `BridgeTransfer` struct of `AccorDefiBridge.sol`. -/
structure BridgeTransfer where
  suiRecipient : Nat
  amount : Nat
  initiatedAt : Nat
  confirmationCount : Nat
  executed : Bool
  refunded : Bool
deriving DecidableEq

/-- The all-zero default of the `transfers` mapping; `initiatedAt = 0` is the
contract's "not found" test. -/
def BridgeTransfer.empty : BridgeTransfer :=
  { suiRecipient := 0, amount := 0, initiatedAt := 0, confirmationCount := 0
    executed := false, refunded := false }

/-- Contract storage: the relayer registry, the `transfers` mapping (total
map with the zero struct as default, as in Solidity), the nested
`confirmations` mapping, and the counters.  Transfer ids (bytes32 keccak
digests in the contract) are abstracted to naturals. -/
structure BState where
  relayers : List Address
  transfers : Nat → BridgeTransfer
  confirmations : Nat → Address → Bool
  totalBridged : Nat
  bridgeNonce : Nat

/-- Revert reasons of `AccorDefiBridge.sol`. -/
inductive BErr
  | NotRelayer
  | TransferNotFound
  | AlreadyExecuted
  | AlreadyRefunded
  | AlreadyConfirmed
  | NotTimedOut
  | InvalidRecipient
  | InvalidAmount
  | InsufficientValue
deriving DecidableEq

/-- `MIN_CONFIRMATIONS` constant. -/
def MIN_CONFIRMATIONS : Nat := 2

/-- `BRIDGE_TIMEOUT` constant: 24 hours in seconds. -/
def BRIDGE_TIMEOUT : Nat := 86400

/-- Point update of the `transfers` mapping. -/
def setTransfer (st : BState) (tid : Nat) (t : BridgeTransfer) : BState :=
  { st with transfers := fun tid' => if tid' = tid then t else st.transfers tid' }

/-- `initiateBridge`: validates recipient/amount/value, records the fresh
transfer under `tid` (standing for the keccak-derived transfer id, which is
fresh because the nonce is strictly increasing), bumps `totalBridged`, and
refunds any excess attached value to the sender. -/
def initiateBridge (sender : Address) (suiRecipient amount msgValue now tid : Nat)
    (st : BState) : Except BErr (BState × List Payout) :=
  if suiRecipient = 0 then .error .InvalidRecipient
  else if amount = 0 then .error .InvalidAmount
  else if msgValue < amount then .error .InsufficientValue
  else
    let t : BridgeTransfer :=
      { suiRecipient := suiRecipient, amount := amount, initiatedAt := now
        confirmationCount := 0, executed := false, refunded := false }
    let st' := setTransfer { st with totalBridged := st.totalBridged + amount
                                     bridgeNonce := st.bridgeNonce + 1 } tid t
    let payouts := if amount < msgValue then [Payout.direct sender (msgValue - amount)] else []
    .ok (st', payouts)

/-- `_executeBridge`: latches the executed flag (the hackathon contract only
emits the event that relayers act on). -/
def executeBridge (st : BState) (tid : Nat) : BState :=
  setTransfer st tid { st.transfers tid with executed := true }

/-- `confirmBridge` (modifier `onlyRelayer`): the guards run in source order
— not found, already executed, already refunded, already confirmed — then
the confirmation is recorded and the transfer auto-executes the moment the
count reaches `MIN_CONFIRMATIONS`. -/
def confirmBridge (caller : Address) (tid : Nat) (st : BState) :
    Except BErr (BState × List Payout) :=
  if caller ∉ st.relayers then .error .NotRelayer
  else
    let t := st.transfers tid
    if t.initiatedAt = 0 then .error .TransferNotFound
    else if t.executed then .error .AlreadyExecuted
    else if t.refunded then .error .AlreadyRefunded
    else if st.confirmations tid caller then .error .AlreadyConfirmed
    else
      let t' := { t with confirmationCount := t.confirmationCount + 1 }
      let st' := setTransfer
        { st with confirmations := fun tid' r =>
            if tid' = tid ∧ r = caller then true else st.confirmations tid' r } tid t'
      if t'.confirmationCount ≥ MIN_CONFIRMATIONS then .ok (executeBridge st' tid, [])
      else .ok (st', [])

/-- `refundBridge`: callable by anyone (`caller` is deliberately unused, as
the function has no access modifier); after the 24h timeout it latches the
refunded flag and pays the full amount to the caller-supplied
`originalSender` address. -/
def refundBridge (caller : Address) (tid : Nat) (originalSender : Address)
    (now : Nat) (st : BState) : Except BErr (BState × List Payout) :=
  let _ := caller
  let t := st.transfers tid
  if t.initiatedAt = 0 then .error .TransferNotFound
  else if t.executed then .error .AlreadyExecuted
  else if t.refunded then .error .AlreadyRefunded
  else if ¬(t.initiatedAt + BRIDGE_TIMEOUT < now) then .error .NotTimedOut
  else
    let st' := setTransfer { st with totalBridged := st.totalBridged - t.amount }
      tid { t with refunded := true }
    .ok (st', [Payout.direct originalSender t.amount])

/-- The externally callable state-mutating bridge operations. -/
inductive BOp
  | init (sender : Address) (suiRecipient amount msgValue now tid : Nat)
  | confirm (caller : Address) (tid : Nat)
  | refund (caller : Address) (tid : Nat) (originalSender : Address) (now : Nat)

/-- Dispatch an entry point. -/
def stepOp (st : BState) : BOp → Except BErr (BState × List Payout)
  | .init sender suiRecipient amount msgValue now tid =>
      initiateBridge sender suiRecipient amount msgValue now tid st
  | .confirm caller tid => confirmBridge caller tid st
  | .refund caller tid originalSender now => refundBridge caller tid originalSender now st

/-- A reverted transaction leaves the state unchanged. -/
def runOp (st : BState) (op : BOp) : BState :=
  match stepOp st op with
  | .ok (st', _) => st'
  | .error _ => st

/-- Run a sequence of transactions, each applying or reverting. -/
def runOps (st : BState) (ops : List BOp) : BState :=
  ops.foldl runOp st

end Bridge

namespace Mirror

/-- Mirror `escrows` row (the columns the milestone handlers read):
`onChainId` is the pinned chain-native escrow id, nullable until observed. -/
structure ERow where
  id : String
  onChainId : Option String
  txHash : Option String
  status : String
deriving DecidableEq

/-- Mirror `milestones` row (the columns the milestone handlers touch):
`escrowId` is the foreign key to `escrows.id`; `onChainId` is the on-chain
milestone index. -/
structure MRow where
  id : String
  escrowId : String
  onChainId : Option Nat
  status : String
  submissionNote : Option String
  submittedAt : Option Nat
  approvedAt : Option Nat
  releasedAt : Option Nat
deriving DecidableEq

/-- The mirror database tables the milestone handlers use; `findFirst`
returns the first row in table order. -/
structure Db where
  escrows : List ERow
  milestones : List MRow
deriving DecidableEq

/-- A chain `MilestoneSubmitted` / `MilestoneApproved` / `MilestoneReleased`
event as decoded by the indexers: the escrow's chain id (stringified), the
milestone index, and the submission note where present. -/
structure MilestoneEvent where
  escrowId : String
  milestoneIdx : Nat
  note : String
deriving DecidableEq

/-- `db.query.escrows.findFirst({where: eq(escrows.onChainId, ev.escrowId)})`. -/
def findEscrow (db : Db) (chainId : String) : Option ERow :=
  db.escrows.find? (fun e => e.onChainId = some chainId)

/-- `db.query.milestones.findFirst({where: eq(milestones.onChainId, idx)})` —
the query is NOT restricted to the matched escrow's milestones. -/
def findMilestone (db : Db) (idx : Nat) : Option MRow :=
  db.milestones.find? (fun m => m.onChainId = some idx)

/-- `db.update(milestones).set(f).where(eq(milestones.id, rowId))`. -/
def updateMilestoneRow (db : Db) (rowId : String) (f : MRow → MRow) : Db :=
  { db with milestones := db.milestones.map (fun m => if m.id = rowId then f m else m) }

/-- `handleMilestoneSubmitted` of `indexers/evm.ts` and `indexers/sui.ts`
(identical structure on both chains): locate the escrow by pinned chain id,
then locate the milestone by its index alone, and UNCONDITIONALLY overwrite
its status to "submitted".  Missing escrow or milestone drops the event. -/
def handleMilestoneSubmitted (db : Db) (ev : MilestoneEvent) (now : Nat) : Db :=
  match findEscrow db ev.escrowId with
  | none => db
  | some _ =>
    match findMilestone db ev.milestoneIdx with
    | none => db
    | some milestone =>
      updateMilestoneRow db milestone.id (fun m =>
        { m with status := "submitted", submissionNote := some ev.note
                 submittedAt := some now })

/-- `handleMilestoneApproved` of both indexers: same lookups, unconditional
overwrite of the status to "approved". -/
def handleMilestoneApproved (db : Db) (ev : MilestoneEvent) (now : Nat) : Db :=
  match findEscrow db ev.escrowId with
  | none => db
  | some _ =>
    match findMilestone db ev.milestoneIdx with
    | none => db
    | some milestone =>
      updateMilestoneRow db milestone.id (fun m =>
        { m with status := "approved", approvedAt := some now })

/-- `handleMilestoneReleased` of both indexers: same lookups, unconditional
overwrite of the status to "released". -/
def handleMilestoneReleased (db : Db) (ev : MilestoneEvent) (now : Nat) : Db :=
  match findEscrow db ev.escrowId with
  | none => db
  | some _ =>
    match findMilestone db ev.milestoneIdx with
    | none => db
    | some milestone =>
      updateMilestoneRow db milestone.id (fun m =>
        { m with status := "released", releasedAt := some now })

/-- Status of the milestone row with primary key `rowId`, if present. -/
def Db.statusOf (db : Db) (rowId : String) : Option String :=
  (db.milestones.find? (fun m => m.id = rowId)).map MRow.status

end Mirror

/-! ## Result projections -/

/-- Whether a transaction result is a success. -/
def isOk {ε α : Type} : Except ε α → Bool
  | .ok _ => true
  | .error _ => false

/-- The post-state of a transaction result (`dflt` on revert). -/
def okOr {ε σ π : Type} : Except ε (σ × π) → σ → σ
  | .ok p, _ => p.1
  | .error _, dflt => dflt

/-- The payouts of a transaction result (none on revert). -/
def paysOf {ε σ π : Type} : Except ε (σ × List π) → List π
  | .ok p => p.2
  | .error _ => []

/-- The error of a transaction result, if it reverted. -/
def errOf {ε σ : Type} : Except ε σ → Option ε
  | .ok _ => none
  | .error e => some e

/-! ## C1: a Released milestone is NOT terminal on this code.

`initiateDispute` never inspects the milestone's current status, so a party
can dispute an already-Released milestone (the escrow is back to Active as
soon as other milestones remain), and a freelancer-majority resolution then
pays the milestone's amount out a second time. -/

/-- Platform configuration used in the concrete C1 run: 1% fee, treasury 99,
arbiters 11, 12, 13. -/
def c1Cfg : Evm.Config := { feeBps := 100, treasury := 99, arbiters := [11, 12, 13] }

/-- Escrow state reachable by: createEscrow(client 1, freelancer 2,
amounts [3000, 7000], payment 10000) then submit/approve/release of
milestone 0: milestone 0 is Released, balance is 7000. -/
def c1State : Evm.EState :=
  { escrow :=
      { id := 1, client := 1, freelancer := 2, title := "", description := ""
        totalAmount := 10000, balance := 7000, status := .Active
        currentMilestone := 0, createdAt := 0, updatedAt := 0
        suiRecipient := 0, crossChain := false }
    milestones :=
      [ { id := 0, description := "", amount := 3000, status := .Released
          deadline := 0, submissionNote := "", submittedAt := 0 }
      , { id := 1, description := "", amount := 7000, status := .Pending
          deadline := 0, submissionNote := "", submittedAt := 0 } ]
    dispute := Evm.Dispute.empty
    voted := [] }

/-- The client disputes the already-Released milestone 0, then arbiters 11
and 12 vote for the freelancer. -/
def c1Ops : List Evm.EOp :=
  [.openDispute 1 0 "rework" 50, .vote 11 false 60, .vote 12 false 61]

/-- C1: the claim fails on the code.  From a state whose milestone 0 is
Released (terminal), `initiateDispute` succeeds and moves it to Disputed;
the ensuing freelancer-majority resolution re-Releases it and pays its
amount a second time (2970 to the freelancer, 30 to the treasury), dropping
the balance from 7000 to 4000 although milestone 0 had already been paid. -/
theorem c1_released_milestone_redisputed :
    isOk (Evm.stepOp c1Cfg c1State (.openDispute 1 0 "rework" 50)) = true ∧
    (Evm.runOp c1Cfg c1State (.openDispute 1 0 "rework" 50)).statusAt 0 = some .Disputed ∧
    isOk (Evm.stepOp c1Cfg (Evm.runOps c1Cfg c1State c1Ops) (.vote 13 true 62)) = true ∧
    paysOf (Evm.stepOp c1Cfg (Evm.runOps c1Cfg c1State c1Ops) (.vote 13 true 62))
      = [Payout.direct 2 2970, Payout.direct 99 30] ∧
    (Evm.runOp c1Cfg (Evm.runOps c1Cfg c1State c1Ops) (.vote 13 true 62)).statusAt 0
      = some .Released ∧
    (Evm.runOp c1Cfg (Evm.runOps c1Cfg c1State c1Ops) (.vote 13 true 62)).escrow.balance
      = 4000 := by
  decide

/-! ## C8: the reconciliation handlers are not idempotent. -/

/-- Mirror database with one escrow (pinned chain id "1") owning one
milestone row (index 0), initially pending. -/
def c8Db0 : Mirror.Db :=
  { escrows := [{ id := "esc-1", onChainId := some "1", txHash := some "0xabc"
                  status := "active" }]
    milestones := [{ id := "ms-1", escrowId := "esc-1", onChainId := some 0
                     status := "pending", submissionNote := none, submittedAt := none
                     approvedAt := none, releasedAt := none }] }

/-- The MilestoneSubmitted event for escrow "1", milestone 0. -/
def c8Ev : Mirror.MilestoneEvent := { escrowId := "1", milestoneIdx := 0, note := "done" }

/-- C8: the claim fails on the code.  Deliver MilestoneSubmitted, then
MilestoneApproved (milestone now "approved"), then re-deliver the SAME
MilestoneSubmitted event: the unconditional overwrite drags the milestone
back to "submitted", so the second application does not leave the mirror
state that the single application (followed by the later event) produced. -/
theorem c8_handlers_not_idempotent :
    (Mirror.handleMilestoneSubmitted c8Db0 c8Ev 10).statusOf "ms-1" = some "submitted" ∧
    (Mirror.handleMilestoneApproved (Mirror.handleMilestoneSubmitted c8Db0 c8Ev 10)
        c8Ev 20).statusOf "ms-1" = some "approved" ∧
    (Mirror.handleMilestoneSubmitted
        (Mirror.handleMilestoneApproved (Mirror.handleMilestoneSubmitted c8Db0 c8Ev 10) c8Ev 20)
        c8Ev 30).statusOf "ms-1" = some "submitted" ∧
    Mirror.handleMilestoneSubmitted
        (Mirror.handleMilestoneApproved (Mirror.handleMilestoneSubmitted c8Db0 c8Ev 10) c8Ev 20)
        c8Ev 30
      ≠ Mirror.handleMilestoneApproved (Mirror.handleMilestoneSubmitted c8Db0 c8Ev 10) c8Ev 20 := by
  decide

/-! ## C2 counterexample: the recorded balance is the full payment. -/

/-- An inert default state used as the revert fallback of `okOr`. -/
def evmDummy : Evm.EState :=
  { escrow :=
      { id := 0, client := 0, freelancer := 0, title := "", description := ""
        totalAmount := 0, balance := 0, status := .Cancelled, currentMilestone := 0
        createdAt := 0, updatedAt := 0, suiRecipient := 0, crossChain := false }
    milestones := [], dispute := Evm.Dispute.empty, voted := [] }

/-- An inert default Sui escrow used as the abort fallback of `okOr`. -/
def suiDummy : SuiM.SEscrow :=
  { escrowId := 0, client := 0, freelancer := 0, title := "", description := ""
    totalAmount := 0, balance := 0, milestones := [], currentMilestone := 0
    status := .Cancelled, dispute := none, arbiters := [], createdAt := 0
    updatedAt := 0, sourceChain := "", sourceTxHash := "" }

/-- C2 counterexample: creating an escrow with milestone amounts
[3000, 4000, 3000] and attached payment 12000 records `balance = 12000`,
not 10000, on the EVM chain (the contract stores `msg.value` even though it
refunds the 2000 excess); and on Sui the whole 12000 coin is absorbed into
the balance with NO refund at all. -/
theorem c2_overpay_balance_cex :
    isOk (Evm.createEscrow 1 2 "t" "d" ["a", "b", "c"] [3000, 4000, 3000] [9, 9, 9]
        0 false 12000 5 1) = true ∧
    (okOr (Evm.createEscrow 1 2 "t" "d" ["a", "b", "c"] [3000, 4000, 3000] [9, 9, 9]
        0 false 12000 5 1) evmDummy).escrow.balance = 12000 ∧
    ¬ (okOr (Evm.createEscrow 1 2 "t" "d" ["a", "b", "c"] [3000, 4000, 3000] [9, 9, 9]
        0 false 12000 5 1) evmDummy).escrow.balance = 10000 ∧
    isOk (SuiM.create_escrow 0 1 2 "t" "d" ["a", "b", "c"] [3000, 4000, 3000] [9, 9, 9]
        "ethereum" "0xabc" 12000 5) = true ∧
    (okOr (SuiM.create_escrow 0 1 2 "t" "d" ["a", "b", "c"] [3000, 4000, 3000] [9, 9, 9]
        "ethereum" "0xabc" 12000 5) suiDummy).balance = 12000 ∧
    paysOf (SuiM.create_escrow 0 1 2 "t" "d" ["a", "b", "c"] [3000, 4000, 3000] [9, 9, 9]
        "ethereum" "0xabc" 12000 5) = [] := by
  decide

/-! ## C3 counterexample: zero milestone amounts are accepted. -/

/-- C3 counterexample: creation with the single milestone amount 0 (and
matching array lengths) SUCCEEDS on both chains; no InvalidMilestoneSet-class
error is raised for zero amounts. -/
theorem c3_zero_amount_accepted_cex :
    isOk (Evm.createEscrow 1 2 "t" "d" ["a"] [0] [9] 0 false 0 5 1) = true ∧
    isOk (SuiM.create_escrow 0 1 2 "t" "d" ["a"] [0] [9] "ethereum" "0x" 0 5) = true := by
  decide

/-! ## C4 counterexample: the post-execution error is AlreadyExecuted. -/

/-- Bridge state with relayers 1 and 2 and no transfers. -/
def c4St0 : Bridge.BState :=
  { relayers := [1, 2], transfers := fun _ => Bridge.BridgeTransfer.empty
    confirmations := fun _ _ => false, totalBridged := 0, bridgeNonce := 0 }

/-- Initiate transfer 5 (amount 1000 at time 10), then relayer 1 and
relayer 2 confirm; the second confirmation auto-executes. -/
def c4Ops : List Bridge.BOp :=
  [.init 7 42 1000 1000 10 5, .confirm 1 5, .confirm 2 5]

/-- C4 counterexample: after auto-execution, the third confirmation attempt
by the already-confirmed relayer 1 fails with AlreadyExecuted (the
AlreadyFinal-class guard runs before the duplicate-confirmation guard), not
with AlreadyConfirmed as the claim states. -/
theorem c4_post_execution_error_cex :
    ((Bridge.runOps c4St0 c4Ops).transfers 5).executed = true ∧
    errOf (Bridge.confirmBridge 1 5 (Bridge.runOps c4St0 c4Ops))
      = some .AlreadyExecuted ∧
    ¬ errOf (Bridge.confirmBridge 1 5 (Bridge.runOps c4St0 c4Ops))
      = some .AlreadyConfirmed := by
  refine ⟨rfl, rfl, ?_⟩
  intro h
  rw [show errOf (Bridge.confirmBridge 1 5 (Bridge.runOps c4St0 c4Ops))
        = some Bridge.BErr.AlreadyExecuted from rfl] at h
  exact absurd (Option.some.inj h) (by decide)

/-! ## Facts about the milestone list built at creation -/

theorem mkMilestones_length (d : List String) (a t : List Nat) :
    (mkMilestones d a t).length = d.length := by
  simp [mkMilestones]

theorem mkMilestones_statusAt (d : List String) (a t : List Nat) (i : Nat)
    (h : i < d.length) :
    ((mkMilestones d a t)[i]?).map Milestone.status = some .Pending := by
  simp [mkMilestones, List.getElem?_map, List.getElem?_range, h]

theorem mkMilestones_idAt (d : List String) (a t : List Nat) (i : Nat)
    (h : i < d.length) :
    ((mkMilestones d a t)[i]?).map Milestone.id = some i := by
  simp [mkMilestones, List.getElem?_map, List.getElem?_range, h]

/-- Reduction of `Evm.createEscrow` when all guards pass. -/
theorem Evm.createEscrow_ok (sender freelancer : Address) (title descr : String)
    (ds : List String) (amts ts : List Nat) (suiR : Nat) (cc : Bool) (v now eid : Nat)
    (h0 : ds ≠ []) (h1 : ds.length = amts.length) (h2 : amts.length = ts.length)
    (h3 : amts.sum ≤ v) :
    Evm.createEscrow sender freelancer title descr ds amts ts suiR cc v now eid =
      .ok ({ escrow :=
               { id := eid, client := sender, freelancer := freelancer
                 title := title, description := descr
                 totalAmount := amts.sum, balance := v, status := .Active
                 currentMilestone := 0, createdAt := now, updatedAt := now
                 suiRecipient := suiR, crossChain := cc }
             milestones := mkMilestones ds amts ts
             dispute := Evm.Dispute.empty
             voted := [] },
           if amts.sum < v then [Payout.direct sender (v - amts.sum)] else []) := by
  unfold Evm.createEscrow
  rw [if_neg (by simpa using h0), if_neg (by simp [h1, h2]), if_neg (by omega)]

/-- Reduction of `SuiM.create_escrow` when all guards pass. -/
theorem SuiM.create_escrow_ok (totalEscrows : Nat) (sender freelancer : Address)
    (title descr : String) (ds : List String) (amts ts : List Nat)
    (sc tx : String) (payment now : Nat)
    (h0 : ds ≠ []) (h1 : ds.length = amts.length) (h2 : ds.length = ts.length)
    (h3 : amts.sum ≤ payment) :
    SuiM.create_escrow totalEscrows sender freelancer title descr ds amts ts sc tx
        payment now =
      .ok ({ escrowId := totalEscrows + 1, client := sender, freelancer := freelancer
             title := title, description := descr
             totalAmount := amts.sum, balance := payment
             milestones := mkMilestones ds amts ts
             currentMilestone := 0, status := .Active, dispute := none
             arbiters := [], createdAt := now, updatedAt := now
             sourceChain := sc, sourceTxHash := tx }, []) := by
  unfold SuiM.create_escrow
  rw [if_neg (by simpa using h0), if_neg (by simp [h1]), if_neg (by simp [h2]),
      if_neg (by omega)]

/-! ## C2 amended -/

/-- C2 (amended): with a nonempty, length-matched milestone set summing to
`total` and attached payment `v ≥ total`, creation succeeds on both chains
with status Active, `N` Pending milestones with ids `0..N-1`, and a recorded
balance equal to the FULL payment `v` (not `total`); on the EVM chain the
excess `v - total` is refunded to the caller, while on Sui nothing is
refunded and the whole coin stays in the escrow balance. -/
theorem c2_create_records_full_payment (sender freelancer : Address)
    (title descr : String) (ds : List String) (amts ts : List Nat) (suiR : Nat)
    (cc : Bool) (v now eid totalEscrows : Nat) (sc tx : String)
    (h0 : ds ≠ []) (h1 : ds.length = amts.length) (h2 : amts.length = ts.length)
    (h3 : amts.sum ≤ v) :
    isOk (Evm.createEscrow sender freelancer title descr ds amts ts suiR cc v now eid)
      = true ∧
    (okOr (Evm.createEscrow sender freelancer title descr ds amts ts suiR cc v now eid)
      evmDummy).escrow.status = .Active ∧
    (okOr (Evm.createEscrow sender freelancer title descr ds amts ts suiR cc v now eid)
      evmDummy).escrow.balance = v ∧
    (okOr (Evm.createEscrow sender freelancer title descr ds amts ts suiR cc v now eid)
      evmDummy).escrow.totalAmount = amts.sum ∧
    (okOr (Evm.createEscrow sender freelancer title descr ds amts ts suiR cc v now eid)
      evmDummy).milestones.length = ds.length ∧
    (∀ i, i < ds.length →
      (okOr (Evm.createEscrow sender freelancer title descr ds amts ts suiR cc v now eid)
        evmDummy).statusAt i = some .Pending ∧
      ((okOr (Evm.createEscrow sender freelancer title descr ds amts ts suiR cc v now eid)
        evmDummy).milestones[i]?).map Milestone.id = some i) ∧
    paysOf (Evm.createEscrow sender freelancer title descr ds amts ts suiR cc v now eid)
      = (if amts.sum < v then [Payout.direct sender (v - amts.sum)] else []) ∧
    isOk (SuiM.create_escrow totalEscrows sender freelancer title descr ds amts ts sc tx
      v now) = true ∧
    (okOr (SuiM.create_escrow totalEscrows sender freelancer title descr ds amts ts sc tx
      v now) suiDummy).status = .Active ∧
    (okOr (SuiM.create_escrow totalEscrows sender freelancer title descr ds amts ts sc tx
      v now) suiDummy).balance = v ∧
    (∀ i, i < ds.length →
      (okOr (SuiM.create_escrow totalEscrows sender freelancer title descr ds amts ts sc tx
        v now) suiDummy).statusAt i = some .Pending) ∧
    paysOf (SuiM.create_escrow totalEscrows sender freelancer title descr ds amts ts sc tx
      v now) = [] := by
  rw [Evm.createEscrow_ok sender freelancer title descr ds amts ts suiR cc v now eid
        h0 h1 h2 h3,
      SuiM.create_escrow_ok totalEscrows sender freelancer title descr ds amts ts sc tx
        v now h0 h1 (h1.trans h2) h3]
  refine ⟨rfl, rfl, rfl, rfl, mkMilestones_length ds amts ts, ?_, rfl, rfl, rfl, rfl, ?_, rfl⟩
  · intro i hi
    exact ⟨mkMilestones_statusAt ds amts ts i hi, mkMilestones_idAt ds amts ts i hi⟩
  · intro i hi
    exact mkMilestones_statusAt ds amts ts i hi

/-- C2 witness: the amended theorem applied to the concrete Scenario-A-style
input (amounts [3000, 4000, 3000], payment 12000). -/
theorem c2_create_records_full_payment_witness :
    (["a", "b", "c"] : List String) ≠ [] ∧
    (okOr (Evm.createEscrow 1 2 "t" "d" ["a", "b", "c"] [3000, 4000, 3000] [9, 9, 9]
      0 false 12000 5 1) evmDummy).escrow.balance = 12000 := by
  refine ⟨by decide, ?_⟩
  exact (c2_create_records_full_payment 1 2 "t" "d" ["a", "b", "c"] [3000, 4000, 3000]
    [9, 9, 9] 0 false 12000 5 1 0 "ethereum" "0x" (by decide) (by decide) (by decide)
    (by decide)).2.2.1

/-! ## C3 amended -/

/-- C3 (amended): creation fails with the InvalidMilestoneSet-class error
exactly when the milestone list is empty or the parallel arrays have
mismatched lengths; a zero milestone amount is NOT rejected — with matching
lengths and sufficient payment, creation succeeds even when amounts contain
zeros. -/
theorem c3_creation_validation (sender freelancer : Address) (title descr : String)
    (ds : List String) (amts ts : List Nat) (suiR : Nat) (cc : Bool)
    (v now eid totalEscrows : Nat) (sc tx : String) :
    (ds = [] →
      Evm.createEscrow sender freelancer title descr ds amts ts suiR cc v now eid
        = .error .NoMilestones) ∧
    (ds ≠ [] → ¬(ds.length = amts.length ∧ amts.length = ts.length) →
      Evm.createEscrow sender freelancer title descr ds amts ts suiR cc v now eid
        = .error .ArrayLengthMismatch) ∧
    (ds ≠ [] → ds.length = amts.length → amts.length = ts.length → amts.sum ≤ v →
      isOk (Evm.createEscrow sender freelancer title descr ds amts ts suiR cc v now eid)
        = true) ∧
    (ds = [] →
      SuiM.create_escrow totalEscrows sender freelancer title descr ds amts ts sc tx v now
        = .error .ENoMilestones) ∧
    (ds ≠ [] → ds.length ≠ amts.length →
      SuiM.create_escrow totalEscrows sender freelancer title descr ds amts ts sc tx v now
        = .error .EInvalidMilestone) ∧
    (ds ≠ [] → ds.length = amts.length → ds.length ≠ ts.length →
      SuiM.create_escrow totalEscrows sender freelancer title descr ds amts ts sc tx v now
        = .error .EInvalidMilestone) ∧
    (ds ≠ [] → ds.length = amts.length → ds.length = ts.length → amts.sum ≤ v →
      isOk (SuiM.create_escrow totalEscrows sender freelancer title descr ds amts ts sc tx
        v now) = true) := by
  refine ⟨?_, ?_, ?_, ?_, ?_, ?_, ?_⟩
  · intro h; unfold Evm.createEscrow; rw [if_pos (by simp [h])]
  · intro h0 hmm
    unfold Evm.createEscrow
    rw [if_neg (by simpa using h0), if_pos (by simpa using hmm)]
  · intro h0 h1 h2 h3
    rw [Evm.createEscrow_ok sender freelancer title descr ds amts ts suiR cc v now eid
      h0 h1 h2 h3]
    rfl
  · intro h; unfold SuiM.create_escrow; rw [if_pos (by simp [h])]
  · intro h0 h1
    unfold SuiM.create_escrow
    rw [if_neg (by simpa using h0), if_pos (by simpa using h1)]
  · intro h0 h1 h2
    unfold SuiM.create_escrow
    rw [if_neg (by simpa using h0), if_neg (by simpa using h1), if_pos (by simpa using h2)]
  · intro h0 h1 h2 h3
    rw [SuiM.create_escrow_ok totalEscrows sender freelancer title descr ds amts ts sc tx
      v now h0 h1 h2 h3]
    rfl

/-- C3 witness: the empty milestone list is rejected, and the concrete
zero-amount milestone set is accepted. -/
theorem c3_creation_validation_witness :
    Evm.createEscrow 1 2 "t" "d" [] [] [] 0 false 0 5 1 = .error .NoMilestones ∧
    isOk (Evm.createEscrow 1 2 "t" "d" ["a"] [0] [9] 0 false 0 5 1) = true := by
  refine ⟨?_, ?_⟩
  · exact (c3_creation_validation 1 2 "t" "d" [] [] [] 0 false 0 5 1 0 "e" "x").1 rfl
  · exact (c3_creation_validation 1 2 "t" "d" ["a"] [0] [9] 0 false 0 5 1 0 "e" "x").2.2.1
      (by decide) (by decide) (by decide) (by decide)

/-! ## The completion check only ever touches the escrow status -/

theorem Evm.checkEscrowCompletion_milestones (st : Evm.EState) :
    (Evm.checkEscrowCompletion st).milestones = st.milestones := by
  unfold Evm.checkEscrowCompletion; split <;> rfl

theorem Evm.checkEscrowCompletion_balance (st : Evm.EState) :
    (Evm.checkEscrowCompletion st).escrow.balance = st.escrow.balance := by
  unfold Evm.checkEscrowCompletion; split <;> rfl

theorem Evm.checkEscrowCompletion_dispute (st : Evm.EState) :
    (Evm.checkEscrowCompletion st).dispute = st.dispute := by
  unfold Evm.checkEscrowCompletion; split <;> rfl

theorem Evm.checkEscrowCompletion_status (st : Evm.EState) :
    (Evm.checkEscrowCompletion st).escrow.status =
      (if st.milestones.all (fun m => m.status.isTerminal) then .Completed
       else st.escrow.status) := by
  unfold Evm.checkEscrowCompletion; split <;> simp_all

theorem Evm.checkEscrowCompletion_statusAt (st : Evm.EState) (i : Nat) :
    (Evm.checkEscrowCompletion st).statusAt i = st.statusAt i := by
  simp [Evm.EState.statusAt, Evm.checkEscrowCompletion_milestones]

theorem SuiM.check_escrow_completion_milestones (e : SuiM.SEscrow) :
    (SuiM.checkEscrowCompletion e).milestones = e.milestones := by
  unfold SuiM.checkEscrowCompletion; split <;> rfl

theorem SuiM.check_escrow_completion_balance (e : SuiM.SEscrow) :
    (SuiM.checkEscrowCompletion e).balance = e.balance := by
  unfold SuiM.checkEscrowCompletion; split <;> rfl

theorem SuiM.check_escrow_completion_dispute (e : SuiM.SEscrow) :
    (SuiM.checkEscrowCompletion e).dispute = e.dispute := by
  unfold SuiM.checkEscrowCompletion; split <;> rfl

theorem SuiM.check_escrow_completion_status (e : SuiM.SEscrow) :
    (SuiM.checkEscrowCompletion e).status =
      (if e.milestones.all (fun m => m.status.isTerminal) then .Completed
       else e.status) := by
  unfold SuiM.checkEscrowCompletion; split <;> simp_all

theorem SuiM.check_escrow_completion_statusAt (e : SuiM.SEscrow) (i : Nat) :
    (SuiM.checkEscrowCompletion e).statusAt i = e.statusAt i := by
  simp [SuiM.SEscrow.statusAt, SuiM.check_escrow_completion_milestones]

/-! ## Release reduction lemmas -/

/-- Reduction of `Evm.releaseMilestone` when every guard passes. -/
theorem Evm.releaseMilestone_ok (cfg : Evm.Config) (caller : Address) (mid now : Nat)
    (st : Evm.EState) (m : Milestone)
    (hm : st.milestones[mid]? = some m)
    (hc : caller = st.escrow.client)
    (ha : st.escrow.status = .Active)
    (hap : m.status = .Approved)
    (hb : m.amount ≤ st.escrow.balance) :
    Evm.releaseMilestone cfg caller mid now st =
      .ok (Evm.checkEscrowCompletion
            { st with milestones := st.milestones.set mid { m with status := .Released }
                      escrow := { st.escrow with balance := st.escrow.balance - m.amount
                                                 updatedAt := now } },
           (if st.escrow.crossChain then
              Payout.bridgeInit st.escrow.suiRecipient
                (m.amount - m.amount * cfg.feeBps / 10000)
            else
              Payout.direct st.escrow.freelancer
                (m.amount - m.amount * cfg.feeBps / 10000)) ::
           (if 0 < m.amount * cfg.feeBps / 10000 then
              [Payout.direct cfg.treasury (m.amount * cfg.feeBps / 10000)]
            else [])) := by
  unfold Evm.releaseMilestone
  rw [if_neg (not_not_intro hc), if_neg (not_not_intro ha)]
  simp only [hm]
  rw [if_pos hap, if_neg (by omega)]
  split <;> split <;> simp_all

/-- Reduction of `SuiM.release_milestone` when every guard passes. -/
theorem SuiM.release_milestone_ok (cfg : SuiM.Config) (sender : Address) (mid now : Nat)
    (e : SuiM.SEscrow) (m : Milestone)
    (hm : e.milestones[mid]? = some m)
    (hc : sender = e.client ∨ sender = cfg.admin)
    (ha : e.status = .Active)
    (hap : m.status = .Approved)
    (hb : m.amount ≤ e.balance) :
    SuiM.release_milestone cfg sender mid now e =
      .ok (SuiM.checkEscrowCompletion
            { e with milestones := e.milestones.set mid { m with status := .Released }
                     balance :=
                       (if 0 < m.amount * cfg.feeBps / 10000 then
                          e.balance - (m.amount - m.amount * cfg.feeBps / 10000)
                            - m.amount * cfg.feeBps / 10000
                        else e.balance - (m.amount - m.amount * cfg.feeBps / 10000))
                     updatedAt := now },
           Payout.direct e.freelancer (m.amount - m.amount * cfg.feeBps / 10000) ::
           (if 0 < m.amount * cfg.feeBps / 10000 then
              [Payout.direct cfg.treasury (m.amount * cfg.feeBps / 10000)]
            else [])) := by
  unfold SuiM.release_milestone
  rw [if_neg (not_not_intro hc), if_neg (not_not_intro ha)]
  simp only [hm]
  rw [if_pos hap, if_neg (by omega)]
  split <;> simp_all

/-! ## C6 -/

/-- C6: on both chains, releasing an Approved milestone with sufficient
balance succeeds, computes `fee = floor(amount * fee_bps / 10000)`, pays
`amount - fee` to the freelancer (a bridge initiation when the EVM escrow is
cross-chain) and `fee` to the treasury when nonzero, marks the milestone
Released, and decreases the balance by exactly `amount`. -/
theorem c6_release_fee_split :
    (∀ (cfg : Evm.Config) (caller : Address) (mid now : Nat) (st : Evm.EState)
        (m : Milestone),
      st.milestones[mid]? = some m →
      caller = st.escrow.client →
      st.escrow.status = .Active →
      m.status = .Approved →
      m.amount ≤ st.escrow.balance →
      isOk (Evm.releaseMilestone cfg caller mid now st) = true ∧
      paysOf (Evm.releaseMilestone cfg caller mid now st) =
        (if st.escrow.crossChain then
           Payout.bridgeInit st.escrow.suiRecipient
             (m.amount - m.amount * cfg.feeBps / 10000)
         else
           Payout.direct st.escrow.freelancer
             (m.amount - m.amount * cfg.feeBps / 10000)) ::
        (if 0 < m.amount * cfg.feeBps / 10000 then
           [Payout.direct cfg.treasury (m.amount * cfg.feeBps / 10000)]
         else []) ∧
      (okOr (Evm.releaseMilestone cfg caller mid now st) evmDummy).statusAt mid
        = some .Released ∧
      (okOr (Evm.releaseMilestone cfg caller mid now st) evmDummy).escrow.balance
        = st.escrow.balance - m.amount) ∧
    (∀ (cfg : SuiM.Config) (sender : Address) (mid now : Nat) (e : SuiM.SEscrow)
        (m : Milestone),
      e.milestones[mid]? = some m →
      (sender = e.client ∨ sender = cfg.admin) →
      e.status = .Active →
      m.status = .Approved →
      m.amount ≤ e.balance →
      cfg.feeBps ≤ 10000 →
      isOk (SuiM.release_milestone cfg sender mid now e) = true ∧
      paysOf (SuiM.release_milestone cfg sender mid now e) =
        Payout.direct e.freelancer (m.amount - m.amount * cfg.feeBps / 10000) ::
        (if 0 < m.amount * cfg.feeBps / 10000 then
           [Payout.direct cfg.treasury (m.amount * cfg.feeBps / 10000)]
         else []) ∧
      (okOr (SuiM.release_milestone cfg sender mid now e) suiDummy).statusAt mid
        = some .Released ∧
      (okOr (SuiM.release_milestone cfg sender mid now e) suiDummy).balance
        = e.balance - m.amount) := by
  constructor
  · intro cfg caller mid now st m hm hc ha hap hb
    have hlt : mid < st.milestones.length := by
      have := List.getElem?_eq_some.mp hm
      exact this.1
    rw [Evm.releaseMilestone_ok cfg caller mid now st m hm hc ha hap hb]
    refine ⟨rfl, rfl, ?_, ?_⟩
    · show (Evm.checkEscrowCompletion _).statusAt mid = some .Released
      rw [Evm.checkEscrowCompletion_statusAt]
      simp [Evm.EState.statusAt, List.getElem?_set_self (by simpa using hlt)]
    · show (Evm.checkEscrowCompletion _).escrow.balance = _
      rw [Evm.checkEscrowCompletion_balance]
  · intro cfg sender mid now e m hm hc ha hap hb hfb
    have hlt : mid < e.milestones.length := by
      have := List.getElem?_eq_some.mp hm
      exact this.1
    have hfee : m.amount * cfg.feeBps / 10000 ≤ m.amount := by
      calc m.amount * cfg.feeBps / 10000 ≤ m.amount * 10000 / 10000 :=
            Nat.div_le_div_right (Nat.mul_le_mul_left _ hfb)
        _ = m.amount := Nat.mul_div_cancel _ (by norm_num)
    rw [SuiM.release_milestone_ok cfg sender mid now e m hm hc ha hap hb]
    refine ⟨rfl, rfl, ?_, ?_⟩
    · show (SuiM.checkEscrowCompletion _).statusAt mid = some .Released
      rw [SuiM.check_escrow_completion_statusAt]
      simp [SuiM.SEscrow.statusAt, List.getElem?_set_self (by simpa using hlt)]
    · show (SuiM.checkEscrowCompletion _).balance = _
      rw [SuiM.check_escrow_completion_balance]
      split <;> (dsimp only; omega)

/-- Configuration for the C6 witness: 1% fee, treasury 9. -/
def c6Cfg : Evm.Config := { feeBps := 100, treasury := 9, arbiters := [] }

/-- Escrow with an Approved milestone of amount 3000 and balance 10000. -/
def c6St : Evm.EState :=
  { escrow :=
      { id := 1, client := 1, freelancer := 2, title := "", description := ""
        totalAmount := 10000, balance := 10000, status := .Active
        currentMilestone := 0, createdAt := 0, updatedAt := 0
        suiRecipient := 0, crossChain := false }
    milestones :=
      [ { id := 0, description := "", amount := 3000, status := .Approved
          deadline := 0, submissionNote := "", submittedAt := 0 }
      , { id := 1, description := "", amount := 7000, status := .Pending
          deadline := 0, submissionNote := "", submittedAt := 0 } ]
    dispute := Evm.Dispute.empty
    voted := [] }

/-- C6 witness: releasing the 3000 milestone at 1% pays the freelancer 2970
and the treasury 30, and drops the balance to 7000. -/
theorem c6_release_fee_split_witness :
    paysOf (Evm.releaseMilestone c6Cfg 1 0 7 c6St)
      = [Payout.direct 2 2970, Payout.direct 9 30] ∧
    (okOr (Evm.releaseMilestone c6Cfg 1 0 7 c6St) evmDummy).escrow.balance = 7000 ∧
    (okOr (Evm.releaseMilestone c6Cfg 1 0 7 c6St) evmDummy).statusAt 0
      = some .Released := by
  have h := c6_release_fee_split.1 c6Cfg 1 0 7 c6St
    { id := 0, description := "", amount := 3000, status := .Approved
      deadline := 0, submissionNote := "", submittedAt := 0 }
    (by decide) (by decide) (by decide) (by decide) (by decide)
  refine ⟨?_, ?_, h.2.2.1⟩
  · rw [h.2.1]; decide
  · rw [h.2.2.2]; decide

/-! ## Bridge helper lemmas -/

/-- An inert default bridge state used as the revert fallback of `okOr`. -/
def bridgeDummy : Bridge.BState :=
  { relayers := [], transfers := fun _ => Bridge.BridgeTransfer.empty
    confirmations := fun _ _ => false, totalBridged := 0, bridgeNonce := 0 }

theorem Bridge.setTransfer_transfers (st : Bridge.BState) (tid : Nat)
    (t : Bridge.BridgeTransfer) (tid' : Nat) :
    (Bridge.setTransfer st tid t).transfers tid' =
      if tid' = tid then t else st.transfers tid' := rfl

theorem Bridge.setTransfer_relayers (st : Bridge.BState) (tid : Nat)
    (t : Bridge.BridgeTransfer) :
    (Bridge.setTransfer st tid t).relayers = st.relayers := rfl

theorem Bridge.setTransfer_confirmations (st : Bridge.BState) (tid : Nat)
    (t : Bridge.BridgeTransfer) :
    (Bridge.setTransfer st tid t).confirmations = st.confirmations := rfl

/-- The state after the confirmation-recording step of `confirmBridge`
(before the possible auto-execution). -/
def Bridge.afterConfirm (st : Bridge.BState) (tid : Nat) (r : Address) : Bridge.BState :=
  Bridge.setTransfer
    { st with confirmations := fun tid' a =>
        if tid' = tid ∧ a = r then true else st.confirmations tid' a }
    tid
    { st.transfers tid with confirmationCount := (st.transfers tid).confirmationCount + 1 }

/-- Reduction of `confirmBridge` when the four state guards pass. -/
theorem Bridge.confirmBridge_eq (r : Address) (tid : Nat) (st : Bridge.BState)
    (hr : r ∈ st.relayers)
    (h0 : (st.transfers tid).initiatedAt ≠ 0)
    (he : (st.transfers tid).executed = false)
    (hf : (st.transfers tid).refunded = false)
    (hc : st.confirmations tid r = false) :
    Bridge.confirmBridge r tid st =
      if Bridge.MIN_CONFIRMATIONS ≤ (st.transfers tid).confirmationCount + 1 then
        .ok (Bridge.executeBridge (Bridge.afterConfirm st tid r) tid, [])
      else .ok (Bridge.afterConfirm st tid r, []) := by
  unfold Bridge.confirmBridge
  rw [if_neg (not_not_intro hr), if_neg h0, if_neg (by simp [he]), if_neg (by simp [hf]),
      if_neg (by simp [hc])]
  rfl

theorem Bridge.afterConfirm_transfers (st : Bridge.BState) (tid : Nat) (r : Address)
    (tid' : Nat) :
    (Bridge.afterConfirm st tid r).transfers tid' =
      if tid' = tid then
        { st.transfers tid with confirmationCount := (st.transfers tid).confirmationCount + 1 }
      else st.transfers tid' := rfl

theorem Bridge.afterConfirm_relayers (st : Bridge.BState) (tid : Nat) (r : Address) :
    (Bridge.afterConfirm st tid r).relayers = st.relayers := rfl

theorem Bridge.afterConfirm_confirmations (st : Bridge.BState) (tid : Nat) (r : Address)
    (tid' : Nat) (a : Address) :
    (Bridge.afterConfirm st tid r).confirmations tid' a =
      if tid' = tid ∧ a = r then true else st.confirmations tid' a := rfl

theorem Bridge.executeBridge_transfers (st : Bridge.BState) (tid tid' : Nat) :
    (Bridge.executeBridge st tid).transfers tid' =
      if tid' = tid then { st.transfers tid with executed := true }
      else st.transfers tid' := rfl

theorem Bridge.executeBridge_relayers (st : Bridge.BState) (tid : Nat) :
    (Bridge.executeBridge st tid).relayers = st.relayers := rfl

theorem Bridge.executeBridge_confirmations (st : Bridge.BState) (tid : Nat) :
    (Bridge.executeBridge st tid).confirmations = st.confirmations := rfl

/-- Reduction of `refundBridge` when every guard passes. -/
theorem Bridge.refundBridge_ok (caller : Address) (tid : Nat) (orig : Address)
    (now : Nat) (st : Bridge.BState)
    (h0 : (st.transfers tid).initiatedAt ≠ 0)
    (he : (st.transfers tid).executed = false)
    (hf : (st.transfers tid).refunded = false)
    (ht : (st.transfers tid).initiatedAt + Bridge.BRIDGE_TIMEOUT < now) :
    Bridge.refundBridge caller tid orig now st =
      .ok (Bridge.setTransfer { st with totalBridged := st.totalBridged - (st.transfers tid).amount }
             tid { st.transfers tid with refunded := true },
           [Payout.direct orig (st.transfers tid).amount]) := by
  unfold Bridge.refundBridge
  rw [if_neg h0, if_neg (by simp [he]), if_neg (by simp [hf]), if_neg (not_not_intro ht)]

/-- A transfer map where no entry is both executed and refunded. -/
def Bridge.Mutex (st : Bridge.BState) : Prop :=
  ∀ t', ¬((st.transfers t').executed = true ∧ (st.transfers t').refunded = true)

theorem Bridge.initiateBridge_mutex {sender : Address} {suiR amount v now tid0 : Nat}
    {st : Bridge.BState} {st' : Bridge.BState} {outs : List Payout}
    (hinv : Bridge.Mutex st)
    (h : Bridge.initiateBridge sender suiR amount v now tid0 st = .ok (st', outs)) :
    Bridge.Mutex st' := by
  intro tid
  unfold Bridge.initiateBridge at h
  split at h
  · exact absurd h (by simp)
  split at h
  · exact absurd h (by simp)
  split at h
  · exact absurd h (by simp)
  simp only [Except.ok.injEq, Prod.mk.injEq] at h
  obtain ⟨h1, _⟩ := h
  subst h1
  rw [Bridge.setTransfer_transfers]
  by_cases htid : tid = tid0
  · simp [htid]
  · simp only [if_neg htid]
    exact hinv tid

theorem Bridge.confirmBridge_mutex {caller : Address} {tid0 : Nat}
    {st : Bridge.BState} {st' : Bridge.BState} {outs : List Payout}
    (hinv : Bridge.Mutex st)
    (h : Bridge.confirmBridge caller tid0 st = .ok (st', outs)) :
    Bridge.Mutex st' := by
  intro tid
  unfold Bridge.confirmBridge at h
  dsimp only at h
  split at h
  · exact absurd h (by simp)
  split at h
  · exact absurd h (by simp)
  split at h
  · exact absurd h (by simp)
  split at h
  · exact absurd h (by simp)
  split at h
  · exact absurd h (by simp)
  rename_i hrel h0 hexec href hconf
  split at h
  · -- auto-execution branch
    simp only [Except.ok.injEq, Prod.mk.injEq] at h
    obtain ⟨h1, _⟩ := h
    subst h1
    by_cases htid : tid = tid0
    · subst htid
      have hx := hinv tid
      simp_all [Bridge.setTransfer, Bridge.executeBridge]
    · have hx := hinv tid
      simp_all [Bridge.setTransfer, Bridge.executeBridge]
  · simp only [Except.ok.injEq, Prod.mk.injEq] at h
    obtain ⟨h1, _⟩ := h
    subst h1
    by_cases htid : tid = tid0
    · subst htid
      have hx := hinv tid
      simp_all [Bridge.setTransfer]
    · have hx := hinv tid
      simp_all [Bridge.setTransfer]

theorem Bridge.refundBridge_mutex {caller : Address} {tid0 : Nat} {orig : Address}
    {now : Nat} {st : Bridge.BState} {st' : Bridge.BState} {outs : List Payout}
    (hinv : Bridge.Mutex st)
    (h : Bridge.refundBridge caller tid0 orig now st = .ok (st', outs)) :
    Bridge.Mutex st' := by
  intro tid
  unfold Bridge.refundBridge at h
  dsimp only at h
  split at h
  · exact absurd h (by simp)
  split at h
  · exact absurd h (by simp)
  split at h
  · exact absurd h (by simp)
  split at h
  · exact absurd h (by simp)
  rename_i h0 hexec href htime
  simp only [Except.ok.injEq, Prod.mk.injEq] at h
  obtain ⟨h1, _⟩ := h
  subst h1
  by_cases htid : tid = tid0
  · subst htid
    have hx := hinv tid
    simp_all [Bridge.setTransfer]
  · have hx := hinv tid
    simp_all [Bridge.setTransfer]

/-- Every bridge operation preserves mutual exclusion of executed/refunded. -/
theorem Bridge.runOp_mutex (st : Bridge.BState) (op : Bridge.BOp)
    (hinv : Bridge.Mutex st) : Bridge.Mutex (Bridge.runOp st op) := by
  unfold Bridge.runOp
  cases op with
  | init sender suiR amount v now tid0 =>
    simp only [Bridge.stepOp]
    split
    · rename_i st' snd heq
      exact Bridge.initiateBridge_mutex hinv heq
    · exact hinv
  | confirm caller tid0 =>
    simp only [Bridge.stepOp]
    split
    · rename_i st' snd heq
      exact Bridge.confirmBridge_mutex hinv heq
    · exact hinv
  | refund caller tid0 orig now =>
    simp only [Bridge.stepOp]
    split
    · rename_i st' snd heq
      exact Bridge.refundBridge_mutex hinv heq
    · exact hinv

/-! ## C7 -/

/-- C7: a bridge refund is caller-independent and gated solely by the 24h
timeout (NotTimedOut strictly before `initiatedAt + 24h < now`); a
successful refund pays the full amount to the supplied original sender,
latches `refunded`, leaves `executed` false, and makes every later
confirmation attempt by a registered relayer fail with the
AlreadyFinal-class error (Already refunded); and no reachable operation can
ever make `executed` and `refunded` simultaneously true. -/
theorem c7_refund_timeout_and_exclusion :
    (∀ (st : Bridge.BState) (caller tid : Nat) (orig : Address) (now : Nat),
      (st.transfers tid).initiatedAt ≠ 0 →
      (st.transfers tid).executed = false →
      (st.transfers tid).refunded = false →
      now ≤ (st.transfers tid).initiatedAt + Bridge.BRIDGE_TIMEOUT →
      Bridge.refundBridge caller tid orig now st = .error .NotTimedOut) ∧
    (∀ (st : Bridge.BState) (caller tid : Nat) (orig : Address) (now : Nat),
      (st.transfers tid).initiatedAt ≠ 0 →
      (st.transfers tid).executed = false →
      (st.transfers tid).refunded = false →
      (st.transfers tid).initiatedAt + Bridge.BRIDGE_TIMEOUT < now →
      isOk (Bridge.refundBridge caller tid orig now st) = true ∧
      paysOf (Bridge.refundBridge caller tid orig now st)
        = [Payout.direct orig (st.transfers tid).amount] ∧
      ((okOr (Bridge.refundBridge caller tid orig now st) bridgeDummy).transfers tid).refunded
        = true ∧
      ((okOr (Bridge.refundBridge caller tid orig now st) bridgeDummy).transfers tid).executed
        = false ∧
      (∀ r : Address, r ∈ st.relayers →
        errOf (Bridge.confirmBridge r tid
            (okOr (Bridge.refundBridge caller tid orig now st) bridgeDummy))
          = some .AlreadyRefunded)) ∧
    (∀ (st : Bridge.BState) (op : Bridge.BOp),
      (∀ t', ¬((st.transfers t').executed = true ∧ (st.transfers t').refunded = true)) →
      ∀ tid, ¬(((Bridge.runOp st op).transfers tid).executed = true ∧
               ((Bridge.runOp st op).transfers tid).refunded = true)) := by
  refine ⟨?_, ?_, ?_⟩
  · intro st caller tid orig now h0 he hf ht
    unfold Bridge.refundBridge
    rw [if_neg h0, if_neg (by simp [he]), if_neg (by simp [hf]),
        if_pos (by omega)]
  · intro st caller tid orig now h0 he hf ht
    rw [Bridge.refundBridge_ok caller tid orig now st h0 he hf ht]
    refine ⟨rfl, rfl, ?_, ?_, ?_⟩
    · simp [okOr, Bridge.setTransfer_transfers]
    · simp [okOr, Bridge.setTransfer_transfers, he]
    · intro r hr
      unfold Bridge.confirmBridge
      rw [if_neg (not_not_intro (by simpa [okOr, Bridge.setTransfer_relayers] using hr))]
      rw [show ((okOr (Except.ok (Bridge.setTransfer
            { st with totalBridged := st.totalBridged - (st.transfers tid).amount }
            tid { st.transfers tid with refunded := true },
            [Payout.direct orig (st.transfers tid).amount])) bridgeDummy).transfers tid)
          = { st.transfers tid with refunded := true } from by
        simp [okOr, Bridge.setTransfer_transfers]]
      rw [if_neg (by simpa using h0), if_neg (by simp [he])]
      rfl
  · intro st op hinv tid
    exact Bridge.runOp_mutex st op hinv tid

/-- Bridge state for the C7 witness: relayers 1 and 2, transfer 5 of amount
1000 initiated at time 100, unconfirmed. -/
def c7St : Bridge.BState :=
  { relayers := [1, 2]
    transfers := fun tid =>
      if tid = 5 then
        { suiRecipient := 42, amount := 1000, initiatedAt := 100
          confirmationCount := 0, executed := false, refunded := false }
      else Bridge.BridgeTransfer.empty
    confirmations := fun _ _ => false
    totalBridged := 1000, bridgeNonce := 1 }

/-- C7 witness: at `now = 100 + 24h` the refund is premature (NotTimedOut);
at `now = 100 + 24h + 1` (25 hours have elapsed) it succeeds, pays the full
1000 to the supplied original sender 7, and a subsequent confirmation by
relayer 1 fails with the AlreadyFinal-class error. -/
theorem c7_refund_timeout_and_exclusion_witness :
    Bridge.refundBridge 3 5 7 86500 c7St = .error .NotTimedOut ∧
    paysOf (Bridge.refundBridge 3 5 7 86501 c7St) = [Payout.direct 7 1000] ∧
    errOf (Bridge.confirmBridge 1 5 (okOr (Bridge.refundBridge 3 5 7 86501 c7St) bridgeDummy))
      = some .AlreadyRefunded := by
  refine ⟨?_, ?_, ?_⟩
  · exact c7_refund_timeout_and_exclusion.1 c7St 3 5 7 86500 (by decide) (by decide)
      (by decide) (by decide)
  · exact (c7_refund_timeout_and_exclusion.2.1 c7St 3 5 7 86501 (by decide) (by decide)
      (by decide) (by decide)).2.1
  · exact (c7_refund_timeout_and_exclusion.2.1 c7St 3 5 7 86501 (by decide) (by decide)
      (by decide) (by decide)).2.2.2.2 1 (by decide)

/-! ## C4 amended -/

/-- C4 (amended): with `MIN_CONFIRMATIONS = 2`, starting from an initiated,
unconfirmed, unfinalised transfer: the first confirmation by registered
relayer `r1` succeeds with count 1 and no execution; a repeat confirmation
by `r1` before execution fails with AlreadyConfirmed; the confirmation by a
second distinct relayer `r2` succeeds and auto-executes the transfer
(count 2, executed); and AFTER execution every confirmation attempt by a
registered relayer — in particular the already-confirmed `r1` — fails with
the AlreadyFinal-class error AlreadyExecuted (the executed guard runs
before the duplicate-confirmation guard), not with AlreadyConfirmed. -/
theorem c4_two_relayer_confirmation (st : Bridge.BState) (tid : Nat) (r1 r2 : Address)
    (hr1 : r1 ∈ st.relayers) (hr2 : r2 ∈ st.relayers) (hne : r1 ≠ r2)
    (ht0 : (st.transfers tid).initiatedAt ≠ 0)
    (htc : (st.transfers tid).confirmationCount = 0)
    (hte : (st.transfers tid).executed = false)
    (htr : (st.transfers tid).refunded = false)
    (hc1 : st.confirmations tid r1 = false)
    (hc2 : st.confirmations tid r2 = false) :
    isOk (Bridge.stepOp st (.confirm r1 tid)) = true ∧
    ((Bridge.runOp st (.confirm r1 tid)).transfers tid).confirmationCount = 1 ∧
    ((Bridge.runOp st (.confirm r1 tid)).transfers tid).executed = false ∧
    errOf (Bridge.confirmBridge r1 tid (Bridge.runOp st (.confirm r1 tid)))
      = some .AlreadyConfirmed ∧
    isOk (Bridge.stepOp (Bridge.runOp st (.confirm r1 tid)) (.confirm r2 tid)) = true ∧
    ((Bridge.runOps st [.confirm r1 tid, .confirm r2 tid]).transfers tid).executed = true ∧
    ((Bridge.runOps st [.confirm r1 tid, .confirm r2 tid]).transfers tid).confirmationCount
      = 2 ∧
    (∀ r : Address, r ∈ st.relayers →
      errOf (Bridge.confirmBridge r tid (Bridge.runOps st [.confirm r1 tid, .confirm r2 tid]))
        = some .AlreadyExecuted) := by
  have hne' : r2 ≠ r1 := hne.symm
  have e1 : Bridge.confirmBridge r1 tid st = .ok (Bridge.afterConfirm st tid r1, []) := by
    rw [Bridge.confirmBridge_eq r1 tid st hr1 ht0 hte htr hc1,
        if_neg (by simp [Bridge.MIN_CONFIRMATIONS, htc])]
  have hrun1 : Bridge.runOp st (.confirm r1 tid) = Bridge.afterConfirm st tid r1 := by
    unfold Bridge.runOp
    simp only [Bridge.stepOp]
    rw [e1]
  have ht0' : ((Bridge.afterConfirm st tid r1).transfers tid).initiatedAt ≠ 0 := by
    simpa [Bridge.afterConfirm_transfers] using ht0
  have hte' : ((Bridge.afterConfirm st tid r1).transfers tid).executed = false := by
    simpa [Bridge.afterConfirm_transfers] using hte
  have htr' : ((Bridge.afterConfirm st tid r1).transfers tid).refunded = false := by
    simpa [Bridge.afterConfirm_transfers] using htr
  have hc2' : (Bridge.afterConfirm st tid r1).confirmations tid r2 = false := by
    simpa [Bridge.afterConfirm_confirmations, hne'] using hc2
  have e3 : Bridge.confirmBridge r2 tid (Bridge.afterConfirm st tid r1) =
      .ok (Bridge.executeBridge
            (Bridge.afterConfirm (Bridge.afterConfirm st tid r1) tid r2) tid, []) := by
    rw [Bridge.confirmBridge_eq r2 tid (Bridge.afterConfirm st tid r1) hr2 ht0' hte' htr' hc2',
        if_pos (by simp [Bridge.afterConfirm_transfers, Bridge.MIN_CONFIRMATIONS, htc])]
  have hrun2 : Bridge.runOps st [.confirm r1 tid, .confirm r2 tid] =
      Bridge.executeBridge (Bridge.afterConfirm (Bridge.afterConfirm st tid r1) tid r2) tid := by
    show Bridge.runOp (Bridge.runOp st (.confirm r1 tid)) (.confirm r2 tid) = _
    rw [hrun1]
    unfold Bridge.runOp
    simp only [Bridge.stepOp]
    rw [e3]
  refine ⟨?_, ?_, ?_, ?_, ?_, ?_, ?_, ?_⟩
  · simp only [Bridge.stepOp]
    rw [e1]
    rfl
  · rw [hrun1]
    simp [Bridge.afterConfirm_transfers, htc]
  · rw [hrun1]
    simp [Bridge.afterConfirm_transfers, hte]
  · rw [hrun1]
    unfold Bridge.confirmBridge
    simp [Bridge.afterConfirm_relayers, Bridge.afterConfirm_transfers,
          Bridge.afterConfirm_confirmations, hr1, ht0, hte, htr, errOf]
  · simp only [Bridge.stepOp]
    rw [hrun1, e3]
    rfl
  · rw [hrun2]
    simp [Bridge.executeBridge_transfers]
  · rw [hrun2]
    simp [Bridge.executeBridge_transfers, Bridge.afterConfirm_transfers, htc]
  · intro r hr
    rw [hrun2]
    unfold Bridge.confirmBridge
    simp [Bridge.executeBridge_relayers, Bridge.afterConfirm_relayers,
          Bridge.executeBridge_transfers, Bridge.afterConfirm_transfers, hr, ht0, errOf]

/-- C4 witness: the amended theorem applied to the concrete bridge state of
the counterexample (relayers 1 and 2, transfer 5 initiated at time 10). -/
theorem c4_two_relayer_confirmation_witness :
    ((Bridge.runOp (Bridge.runOp c4St0 (.init 7 42 1000 1000 10 5)) (.confirm 1 5)).transfers
      5).confirmationCount = 1 ∧
    errOf (Bridge.confirmBridge 1 5
        (Bridge.runOps (Bridge.runOp c4St0 (.init 7 42 1000 1000 10 5))
          [.confirm 1 5, .confirm 2 5]))
      = some .AlreadyExecuted := by
  have h := c4_two_relayer_confirmation (Bridge.runOp c4St0 (.init 7 42 1000 1000 10 5)) 5 1 2
    (by decide) (by decide) (by decide) (by decide) (by decide) (by decide) (by decide)
    (by decide) (by decide)
  exact ⟨h.2.1, h.2.2.2.2.2.2.2 1 (by decide)⟩

/-! ## Dispute resolution reduction lemmas (EVM) -/

/-- Reduction of `Evm.resolveDispute` on a client majority. -/
theorem Evm.resolveDispute_clientWin (cfg : Evm.Config) (now : Nat) (st : Evm.EState)
    (m : Milestone)
    (hm : st.milestones[st.dispute.milestoneId]? = some m)
    (hmaj : st.dispute.votesForClient > st.dispute.votesForFreelancer) :
    Evm.resolveDispute cfg now st =
      .ok (Evm.checkEscrowCompletion
            { st with milestones :=
                        st.milestones.set st.dispute.milestoneId { m with status := .Refunded }
                      dispute := { st.dispute with resolved := true, resolutionNote := "Resolved in favor of client" }
                      escrow := { st.escrow with status := .Active, updatedAt := now } },
           []) := by
  unfold Evm.resolveDispute
  simp only [hm]
  rw [if_pos hmaj]

/-- Reduction of `Evm.resolveDispute` on a freelancer majority with
sufficient balance. -/
theorem Evm.resolveDispute_freelancerWin (cfg : Evm.Config) (now : Nat) (st : Evm.EState)
    (m : Milestone)
    (hm : st.milestones[st.dispute.milestoneId]? = some m)
    (hmaj : ¬ st.dispute.votesForClient > st.dispute.votesForFreelancer)
    (hb : m.amount ≤ st.escrow.balance) :
    Evm.resolveDispute cfg now st =
      .ok (Evm.checkEscrowCompletion
            { st with milestones :=
                        st.milestones.set st.dispute.milestoneId { m with status := .Released }
                      dispute := { st.dispute with resolved := true, resolutionNote := "Resolved in favor of freelancer" }
                      escrow := { st.escrow with status := .Active
                                                 balance := st.escrow.balance - m.amount
                                                 updatedAt := now } },
           (if st.escrow.crossChain then
              Payout.bridgeInit st.escrow.suiRecipient
                (m.amount - m.amount * cfg.feeBps / 10000)
            else
              Payout.direct st.escrow.freelancer
                (m.amount - m.amount * cfg.feeBps / 10000)) ::
           (if 0 < m.amount * cfg.feeBps / 10000 then
              [Payout.direct cfg.treasury (m.amount * cfg.feeBps / 10000)]
            else [])) := by
  unfold Evm.resolveDispute
  simp only [hm]
  rw [if_neg hmaj, if_neg (by omega)]
  split <;> split <;> simp_all

/-- Behaviour of `Evm.resolveDispute`: it latches `resolved`, refunds the
disputed milestone on a client majority (no transfer, balance untouched)
and re-releases it with the `releaseMilestone` fee split on a freelancer
majority, then re-derives the escrow status from milestone terminality. -/
theorem Evm.resolveDispute_spec (cfg : Evm.Config) (now : Nat) (st : Evm.EState)
    (m : Milestone)
    (hm : st.milestones[st.dispute.milestoneId]? = some m)
    (hb : m.amount ≤ st.escrow.balance) :
    isOk (Evm.resolveDispute cfg now st) = true ∧
    (okOr (Evm.resolveDispute cfg now st) evmDummy).dispute.resolved = true ∧
    (st.dispute.votesForClient > st.dispute.votesForFreelancer →
      (okOr (Evm.resolveDispute cfg now st) evmDummy).statusAt st.dispute.milestoneId
        = some .Refunded ∧
      paysOf (Evm.resolveDispute cfg now st) = [] ∧
      (okOr (Evm.resolveDispute cfg now st) evmDummy).escrow.balance = st.escrow.balance ∧
      (okOr (Evm.resolveDispute cfg now st) evmDummy).escrow.status =
        (if (okOr (Evm.resolveDispute cfg now st) evmDummy).milestones.all
              (fun x => x.status.isTerminal) then .Completed else .Active)) ∧
    (¬ st.dispute.votesForClient > st.dispute.votesForFreelancer →
      (okOr (Evm.resolveDispute cfg now st) evmDummy).statusAt st.dispute.milestoneId
        = some .Released ∧
      paysOf (Evm.resolveDispute cfg now st) =
        (if st.escrow.crossChain then
           Payout.bridgeInit st.escrow.suiRecipient
             (m.amount - m.amount * cfg.feeBps / 10000)
         else
           Payout.direct st.escrow.freelancer
             (m.amount - m.amount * cfg.feeBps / 10000)) ::
        (if 0 < m.amount * cfg.feeBps / 10000 then
           [Payout.direct cfg.treasury (m.amount * cfg.feeBps / 10000)]
         else []) ∧
      (okOr (Evm.resolveDispute cfg now st) evmDummy).escrow.balance
        = st.escrow.balance - m.amount ∧
      (okOr (Evm.resolveDispute cfg now st) evmDummy).escrow.status =
        (if (okOr (Evm.resolveDispute cfg now st) evmDummy).milestones.all
              (fun x => x.status.isTerminal) then .Completed else .Active)) := by
  have hlt : st.dispute.milestoneId < st.milestones.length :=
    (List.getElem?_eq_some.mp hm).1
  by_cases hmaj : st.dispute.votesForClient > st.dispute.votesForFreelancer
  · rw [Evm.resolveDispute_clientWin cfg now st m hm hmaj]
    refine ⟨rfl, ?_, ?_, fun hc => absurd hmaj hc⟩
    · simp only [okOr]
      rw [Evm.checkEscrowCompletion_dispute]
    · intro _
      refine ⟨?_, rfl, ?_, ?_⟩
      · simp only [okOr]
        rw [Evm.checkEscrowCompletion_statusAt]
        simp [Evm.EState.statusAt, List.getElem?_set_self (by simpa using hlt)]
      · simp only [okOr]
        rw [Evm.checkEscrowCompletion_balance]
      · simp only [okOr]
        rw [Evm.checkEscrowCompletion_status]
        simp [Evm.checkEscrowCompletion_milestones]
  · rw [Evm.resolveDispute_freelancerWin cfg now st m hm hmaj hb]
    refine ⟨rfl, ?_, fun hc => absurd hc hmaj, ?_⟩
    · simp only [okOr]
      rw [Evm.checkEscrowCompletion_dispute]
    · intro _
      refine ⟨?_, rfl, ?_, ?_⟩
      · simp only [okOr]
        rw [Evm.checkEscrowCompletion_statusAt]
        simp [Evm.EState.statusAt, List.getElem?_set_self (by simpa using hlt)]
      · simp only [okOr]
        rw [Evm.checkEscrowCompletion_balance]
      · simp only [okOr]
        rw [Evm.checkEscrowCompletion_status]
        simp [Evm.checkEscrowCompletion_milestones]

/-- Reduction of `Evm.voteDispute` when the vote reaches the quorum of 3:
the vote is recorded and `_resolveDispute` runs on the updated state. -/
theorem Evm.voteDispute_quorum (cfg : Evm.Config) (caller : Address) (b : Bool)
    (now : Nat) (st : Evm.EState)
    (harb : caller ∈ cfg.arbiters) (hds : st.escrow.status = .Disputed)
    (hnr : st.dispute.resolved = false) (hnv : caller ∉ st.voted)
    (htot : st.dispute.votesForClient + st.dispute.votesForFreelancer = 2) :
    Evm.voteDispute cfg caller b now st =
      Evm.resolveDispute cfg now
        { st with dispute :=
                    (if b then
                      { st.dispute with votesForClient := st.dispute.votesForClient + 1 }
                     else
                      { st.dispute with votesForFreelancer := st.dispute.votesForFreelancer + 1 })
                  voted := caller :: st.voted } := by
  unfold Evm.voteDispute
  rw [if_neg (not_not_intro harb), if_neg (not_not_intro hds), if_neg (by simp [hnr]),
      if_neg hnv]
  cases b <;>
    · dsimp only
      rw [if_pos (by simp [Evm.MIN_ARBITERS]; omega)]

/-! ## Dispute resolution reduction lemmas (Sui) -/

/-- Reduction of `SuiM.resolve_dispute_internal` on a client majority. -/
theorem SuiM.resolve_clientWin (cfg : SuiM.Config) (now : Nat) (e : SuiM.SEscrow)
    (d : SuiM.Dispute) (m : Milestone)
    (hd : e.dispute = some d)
    (hm : e.milestones[d.milestoneId]? = some m)
    (hmaj : d.votesForClient > d.votesForFreelancer) :
    SuiM.resolve_dispute_internal cfg now e =
      .ok (SuiM.checkEscrowCompletion
            { e with milestones := e.milestones.set d.milestoneId { m with status := .Refunded }
                     dispute := some { d with resolved := true, resolutionNote := "Resolved in favor of client" }
                     status := .Active
                     updatedAt := now },
           []) := by
  unfold SuiM.resolve_dispute_internal
  simp only [hd]
  simp only [hm]
  rw [if_pos hmaj]

/-- Reduction of `SuiM.resolve_dispute_internal` on a freelancer majority
with sufficient balance and a fee rate of at most 100% (so both transfer
conditionals fire whenever the fee is nonzero). -/
theorem SuiM.resolve_freelancerWin (cfg : SuiM.Config) (now : Nat) (e : SuiM.SEscrow)
    (d : SuiM.Dispute) (m : Milestone)
    (hd : e.dispute = some d)
    (hm : e.milestones[d.milestoneId]? = some m)
    (hmaj : ¬ d.votesForClient > d.votesForFreelancer)
    (hb : m.amount ≤ e.balance)
    (hfb : cfg.feeBps ≤ 10000) :
    SuiM.resolve_dispute_internal cfg now e =
      .ok (SuiM.checkEscrowCompletion
            { e with milestones := e.milestones.set d.milestoneId { m with status := .Released }
                     dispute := some { d with resolved := true, resolutionNote := "Resolved in favor of freelancer" }
                     status := .Active
                     balance :=
                       (if 0 < m.amount * cfg.feeBps / 10000 then
                          e.balance - (m.amount - m.amount * cfg.feeBps / 10000)
                            - m.amount * cfg.feeBps / 10000
                        else e.balance - (m.amount - m.amount * cfg.feeBps / 10000))
                     updatedAt := now },
           Payout.direct e.freelancer (m.amount - m.amount * cfg.feeBps / 10000) ::
           (if 0 < m.amount * cfg.feeBps / 10000 then
              [Payout.direct cfg.treasury (m.amount * cfg.feeBps / 10000)]
            else [])) := by
  have hfee : m.amount * cfg.feeBps / 10000 ≤ m.amount := by
    calc m.amount * cfg.feeBps / 10000 ≤ m.amount * 10000 / 10000 :=
          Nat.div_le_div_right (Nat.mul_le_mul_left _ hfb)
      _ = m.amount := Nat.mul_div_cancel _ (by norm_num)
  have hpm : m.amount - m.amount * cfg.feeBps / 10000 ≤ e.balance := by omega
  have hfle : m.amount * cfg.feeBps / 10000
      ≤ e.balance - (m.amount - m.amount * cfg.feeBps / 10000) := by omega
  unfold SuiM.resolve_dispute_internal
  simp only [hd]
  simp only [hm]
  rw [if_neg hmaj]
  simp only [hpm, if_true, hfle, and_true, true_and]
  split <;> simp_all

/-- Behaviour of `SuiM.resolve_dispute_internal` under the reachable
preconditions, mirroring `Evm.resolveDispute_spec`. -/
theorem SuiM.resolve_spec (cfg : SuiM.Config) (now : Nat) (e : SuiM.SEscrow)
    (d : SuiM.Dispute) (m : Milestone)
    (hd : e.dispute = some d)
    (hm : e.milestones[d.milestoneId]? = some m)
    (hb : m.amount ≤ e.balance)
    (hfb : cfg.feeBps ≤ 10000) :
    isOk (SuiM.resolve_dispute_internal cfg now e) = true ∧
    ((okOr (SuiM.resolve_dispute_internal cfg now e) suiDummy).dispute.map
        SuiM.Dispute.resolved) = some true ∧
    (d.votesForClient > d.votesForFreelancer →
      (okOr (SuiM.resolve_dispute_internal cfg now e) suiDummy).statusAt d.milestoneId
        = some .Refunded ∧
      paysOf (SuiM.resolve_dispute_internal cfg now e) = [] ∧
      (okOr (SuiM.resolve_dispute_internal cfg now e) suiDummy).balance = e.balance ∧
      (okOr (SuiM.resolve_dispute_internal cfg now e) suiDummy).status =
        (if (okOr (SuiM.resolve_dispute_internal cfg now e) suiDummy).milestones.all
              (fun x => x.status.isTerminal) then .Completed else .Active)) ∧
    (¬ d.votesForClient > d.votesForFreelancer →
      (okOr (SuiM.resolve_dispute_internal cfg now e) suiDummy).statusAt d.milestoneId
        = some .Released ∧
      paysOf (SuiM.resolve_dispute_internal cfg now e) =
        Payout.direct e.freelancer (m.amount - m.amount * cfg.feeBps / 10000) ::
        (if 0 < m.amount * cfg.feeBps / 10000 then
           [Payout.direct cfg.treasury (m.amount * cfg.feeBps / 10000)]
         else []) ∧
      (okOr (SuiM.resolve_dispute_internal cfg now e) suiDummy).balance
        = e.balance - m.amount ∧
      (okOr (SuiM.resolve_dispute_internal cfg now e) suiDummy).status =
        (if (okOr (SuiM.resolve_dispute_internal cfg now e) suiDummy).milestones.all
              (fun x => x.status.isTerminal) then .Completed else .Active)) := by
  have hlt : d.milestoneId < e.milestones.length :=
    (List.getElem?_eq_some.mp hm).1
  have hfee : m.amount * cfg.feeBps / 10000 ≤ m.amount := by
    calc m.amount * cfg.feeBps / 10000 ≤ m.amount * 10000 / 10000 :=
          Nat.div_le_div_right (Nat.mul_le_mul_left _ hfb)
      _ = m.amount := Nat.mul_div_cancel _ (by norm_num)
  by_cases hmaj : d.votesForClient > d.votesForFreelancer
  · rw [SuiM.resolve_clientWin cfg now e d m hd hm hmaj]
    refine ⟨rfl, ?_, ?_, fun hc => absurd hmaj hc⟩
    · simp only [okOr]
      rw [SuiM.check_escrow_completion_dispute]
      rfl
    · intro _
      refine ⟨?_, rfl, ?_, ?_⟩
      · simp only [okOr]
        rw [SuiM.check_escrow_completion_statusAt]
        simp [SuiM.SEscrow.statusAt, List.getElem?_set_self (by simpa using hlt)]
      · simp only [okOr]
        rw [SuiM.check_escrow_completion_balance]
      · simp only [okOr]
        rw [SuiM.check_escrow_completion_status]
        simp [SuiM.check_escrow_completion_milestones]
  · rw [SuiM.resolve_freelancerWin cfg now e d m hd hm hmaj hb hfb]
    refine ⟨rfl, ?_, fun hc => absurd hc hmaj, ?_⟩
    · simp only [okOr]
      rw [SuiM.check_escrow_completion_dispute]
      rfl
    · intro _
      refine ⟨?_, rfl, ?_, ?_⟩
      · simp only [okOr]
        rw [SuiM.check_escrow_completion_statusAt]
        simp [SuiM.SEscrow.statusAt, List.getElem?_set_self (by simpa using hlt)]
      · simp only [okOr]
        rw [SuiM.check_escrow_completion_balance]
        split <;> (dsimp only; omega)
      · simp only [okOr]
        rw [SuiM.check_escrow_completion_status]
        simp [SuiM.check_escrow_completion_milestones]

/-- Reduction of `SuiM.vote_dispute` when the vote reaches the quorum. -/
theorem SuiM.vote_dispute_quorum (cfg : SuiM.Config) (sender : Address) (b : Bool)
    (now : Nat) (e : SuiM.SEscrow) (d : SuiM.Dispute)
    (hst : e.status = .Disputed) (hd : e.dispute = some d)
    (harb : sender ∈ cfg.arbiterRegistry)
    (hnr : d.resolved = false) (hnv : sender ∉ d.voters)
    (htot : d.votesForClient + d.votesForFreelancer = 2) :
    SuiM.vote_dispute cfg sender b now e =
      SuiM.resolve_dispute_internal cfg now
        { e with dispute := some
                   (if b then
                     { d with voters := d.voters ++ [sender], votesForClient := d.votesForClient + 1 }
                    else
                     { d with voters := d.voters ++ [sender], votesForFreelancer := d.votesForFreelancer + 1 })
                 updatedAt := now } := by
  unfold SuiM.vote_dispute
  rw [if_neg (not_not_intro hst)]
  simp only [hd]
  rw [if_neg (not_not_intro harb), if_neg (by simp [hnr]), if_neg hnv]
  cases b <;>
    rw [if_pos (by simp [SuiM.MIN_ARBITERS]; omega)]

/-! ## C5 -/

/-- C5: on both chains, the vote that brings the tally to quorum 3
immediately resolves the dispute and latches `resolved`.  A client majority
refunds the disputed milestone, moves no funds, and returns the escrow to
Active (Completed exactly when every milestone is then terminal); a
freelancer majority releases the milestone with the `releaseMilestone` fee
split (`amount - fee` to the freelancer — bridged if the EVM escrow is
cross-chain — and `fee` to the treasury) and decreases the balance by
`amount`. -/
theorem c5_quorum_vote_resolves :
    (∀ (cfg : Evm.Config) (caller : Address) (b : Bool) (now : Nat) (st : Evm.EState)
        (m : Milestone),
      caller ∈ cfg.arbiters →
      st.escrow.status = .Disputed →
      st.dispute.resolved = false →
      caller ∉ st.voted →
      st.dispute.votesForClient + st.dispute.votesForFreelancer = 2 →
      st.milestones[st.dispute.milestoneId]? = some m →
      m.amount ≤ st.escrow.balance →
      isOk (Evm.voteDispute cfg caller b now st) = true ∧
      (okOr (Evm.voteDispute cfg caller b now st) evmDummy).dispute.resolved = true ∧
      (st.dispute.votesForClient + (if b then 1 else 0)
          > st.dispute.votesForFreelancer + (if b then 0 else 1) →
        (okOr (Evm.voteDispute cfg caller b now st) evmDummy).statusAt
            st.dispute.milestoneId = some .Refunded ∧
        paysOf (Evm.voteDispute cfg caller b now st) = [] ∧
        (okOr (Evm.voteDispute cfg caller b now st) evmDummy).escrow.balance
          = st.escrow.balance ∧
        (okOr (Evm.voteDispute cfg caller b now st) evmDummy).escrow.status =
          (if (okOr (Evm.voteDispute cfg caller b now st) evmDummy).milestones.all
                (fun x => x.status.isTerminal) then .Completed else .Active)) ∧
      (¬ st.dispute.votesForClient + (if b then 1 else 0)
          > st.dispute.votesForFreelancer + (if b then 0 else 1) →
        (okOr (Evm.voteDispute cfg caller b now st) evmDummy).statusAt
            st.dispute.milestoneId = some .Released ∧
        paysOf (Evm.voteDispute cfg caller b now st) =
          (if st.escrow.crossChain then
             Payout.bridgeInit st.escrow.suiRecipient
               (m.amount - m.amount * cfg.feeBps / 10000)
           else
             Payout.direct st.escrow.freelancer
               (m.amount - m.amount * cfg.feeBps / 10000)) ::
          (if 0 < m.amount * cfg.feeBps / 10000 then
             [Payout.direct cfg.treasury (m.amount * cfg.feeBps / 10000)]
           else []) ∧
        (okOr (Evm.voteDispute cfg caller b now st) evmDummy).escrow.balance
          = st.escrow.balance - m.amount ∧
        (okOr (Evm.voteDispute cfg caller b now st) evmDummy).escrow.status =
          (if (okOr (Evm.voteDispute cfg caller b now st) evmDummy).milestones.all
                (fun x => x.status.isTerminal) then .Completed else .Active))) ∧
    (∀ (cfg : SuiM.Config) (sender : Address) (b : Bool) (now : Nat) (e : SuiM.SEscrow)
        (d : SuiM.Dispute) (m : Milestone),
      e.status = .Disputed →
      e.dispute = some d →
      sender ∈ cfg.arbiterRegistry →
      d.resolved = false →
      sender ∉ d.voters →
      d.votesForClient + d.votesForFreelancer = 2 →
      e.milestones[d.milestoneId]? = some m →
      m.amount ≤ e.balance →
      cfg.feeBps ≤ 10000 →
      isOk (SuiM.vote_dispute cfg sender b now e) = true ∧
      ((okOr (SuiM.vote_dispute cfg sender b now e) suiDummy).dispute.map
          SuiM.Dispute.resolved) = some true ∧
      (d.votesForClient + (if b then 1 else 0)
          > d.votesForFreelancer + (if b then 0 else 1) →
        (okOr (SuiM.vote_dispute cfg sender b now e) suiDummy).statusAt d.milestoneId
          = some .Refunded ∧
        paysOf (SuiM.vote_dispute cfg sender b now e) = [] ∧
        (okOr (SuiM.vote_dispute cfg sender b now e) suiDummy).balance = e.balance ∧
        (okOr (SuiM.vote_dispute cfg sender b now e) suiDummy).status =
          (if (okOr (SuiM.vote_dispute cfg sender b now e) suiDummy).milestones.all
                (fun x => x.status.isTerminal) then .Completed else .Active)) ∧
      (¬ d.votesForClient + (if b then 1 else 0)
          > d.votesForFreelancer + (if b then 0 else 1) →
        (okOr (SuiM.vote_dispute cfg sender b now e) suiDummy).statusAt d.milestoneId
          = some .Released ∧
        paysOf (SuiM.vote_dispute cfg sender b now e) =
          Payout.direct e.freelancer (m.amount - m.amount * cfg.feeBps / 10000) ::
          (if 0 < m.amount * cfg.feeBps / 10000 then
             [Payout.direct cfg.treasury (m.amount * cfg.feeBps / 10000)]
           else []) ∧
        (okOr (SuiM.vote_dispute cfg sender b now e) suiDummy).balance
          = e.balance - m.amount ∧
        (okOr (SuiM.vote_dispute cfg sender b now e) suiDummy).status =
          (if (okOr (SuiM.vote_dispute cfg sender b now e) suiDummy).milestones.all
                (fun x => x.status.isTerminal) then .Completed else .Active))) := by
  constructor
  · intro cfg caller b now st m harb hds hnr hnv htot hm hb
    rw [Evm.voteDispute_quorum cfg caller b now st harb hds hnr hnv htot]
    cases b
    · have H := Evm.resolveDispute_spec cfg now
        { st with dispute := { st.dispute with votesForFreelancer := st.dispute.votesForFreelancer + 1 }
                  voted := caller :: st.voted } m hm hb
      refine ⟨H.1, H.2.1, ?_, ?_⟩
      · intro hmaj
        exact H.2.2.1 (by simpa using hmaj)
      · intro hmaj
        exact H.2.2.2 (by simpa using hmaj)
    · have H := Evm.resolveDispute_spec cfg now
        { st with dispute := { st.dispute with votesForClient := st.dispute.votesForClient + 1 }
                  voted := caller :: st.voted } m hm hb
      refine ⟨H.1, H.2.1, ?_, ?_⟩
      · intro hmaj
        exact H.2.2.1 (by simpa using hmaj)
      · intro hmaj
        exact H.2.2.2 (by simpa using hmaj)
  · intro cfg sender b now e d m hst hd harb hnr hnv htot hm hb hfb
    rw [SuiM.vote_dispute_quorum cfg sender b now e d hst hd harb hnr hnv htot]
    cases b
    · have H := SuiM.resolve_spec cfg now
        { e with dispute := some { d with voters := d.voters ++ [sender], votesForFreelancer := d.votesForFreelancer + 1 }
                 updatedAt := now }
        { d with voters := d.voters ++ [sender], votesForFreelancer := d.votesForFreelancer + 1 }
        m rfl hm hb hfb
      refine ⟨H.1, H.2.1, ?_, ?_⟩
      · intro hmaj
        exact H.2.2.1 (by simpa using hmaj)
      · intro hmaj
        exact H.2.2.2 (by simpa using hmaj)
    · have H := SuiM.resolve_spec cfg now
        { e with dispute := some { d with voters := d.voters ++ [sender], votesForClient := d.votesForClient + 1 }
                 updatedAt := now }
        { d with voters := d.voters ++ [sender], votesForClient := d.votesForClient + 1 }
        m rfl hm hb hfb
      refine ⟨H.1, H.2.1, ?_, ?_⟩
      · intro hmaj
        exact H.2.2.1 (by simpa using hmaj)
      · intro hmaj
        exact H.2.2.2 (by simpa using hmaj)

/-- Configuration for the C5 witness: 1% fee, treasury 99, arbiters 11-13. -/
def c5Cfg : Evm.Config := { feeBps := 100, treasury := 99, arbiters := [11, 12, 13] }

/-- Scenario C state just before the third vote: milestone 1 Disputed,
milestone 2 still Pending, arbiters 11 and 12 have voted for the client. -/
def c5St : Evm.EState :=
  { escrow :=
      { id := 1, client := 1, freelancer := 2, title := "", description := ""
        totalAmount := 10000, balance := 7000, status := .Disputed
        currentMilestone := 0, createdAt := 0, updatedAt := 0
        suiRecipient := 0, crossChain := false }
    milestones :=
      [ { id := 0, description := "", amount := 3000, status := .Released
          deadline := 0, submissionNote := "", submittedAt := 0 }
      , { id := 1, description := "", amount := 4000, status := .Disputed
          deadline := 0, submissionNote := "", submittedAt := 0 }
      , { id := 2, description := "", amount := 3000, status := .Pending
          deadline := 0, submissionNote := "", submittedAt := 0 } ]
    dispute :=
      { initiatedBy := 1, initiatedAt := 50, reason := "quality", milestoneId := 1
        votesForClient := 2, votesForFreelancer := 0, resolved := false
        resolutionNote := "" }
    voted := [11, 12] }

/-- C5 witness (Scenario C): arbiter 13 votes for the freelancer, making the
tally 2-1 for the client; the dispute resolves, milestone 1 becomes
Refunded, no funds move, and the escrow returns to Active (milestone 2 is
still Pending). -/
theorem c5_quorum_vote_resolves_witness :
    isOk (Evm.voteDispute c5Cfg 13 false 62 c5St) = true ∧
    (okOr (Evm.voteDispute c5Cfg 13 false 62 c5St) evmDummy).dispute.resolved = true ∧
    (okOr (Evm.voteDispute c5Cfg 13 false 62 c5St) evmDummy).statusAt 1
      = some .Refunded ∧
    paysOf (Evm.voteDispute c5Cfg 13 false 62 c5St) = [] ∧
    (okOr (Evm.voteDispute c5Cfg 13 false 62 c5St) evmDummy).escrow.status = .Active := by
  have H := c5_quorum_vote_resolves.1 c5Cfg 13 false 62 c5St
    { id := 1, description := "", amount := 4000, status := .Disputed
      deadline := 0, submissionNote := "", submittedAt := 0 }
    (by decide) (by decide) (by decide) (by decide) (by decide) (by decide) (by decide)
  have Hm := H.2.2.1 (by decide)
  refine ⟨H.1, H.2.1, Hm.1, Hm.2.1, ?_⟩
  rw [Hm.2.2.2]
  decide

/-! ## C9 -/

/-- Mirror database with two escrows (pinned chain ids "10" and "20") whose
milestones share the on-chain index 0; escrow A's milestone row comes first
in table order. -/
def c9Db : Mirror.Db :=
  { escrows :=
      [ { id := "A", onChainId := some "10", txHash := some "0xa", status := "active" }
      , { id := "B", onChainId := some "20", txHash := some "0xb", status := "active" } ]
    milestones :=
      [ { id := "mA", escrowId := "A", onChainId := some 0, status := "pending"
          submissionNote := none, submittedAt := none, approvedAt := none
          releasedAt := none }
      , { id := "mB", escrowId := "B", onChainId := some 0, status := "pending"
          submissionNote := none, submittedAt := none, approvedAt := none
          releasedAt := none } ] }

/-- The MilestoneSubmitted event for escrow "20" (mirror row "B"), index 0. -/
def c9Ev : Mirror.MilestoneEvent := { escrowId := "20", milestoneIdx := 0, note := "done" }

/-- C9: the milestone row the handler updates is chosen by the unscoped
index-only query: the selection is independent of the escrows table, the
update always lands on the row `findMilestone` returns even when its
`escrowId` differs from the matched escrow's id, and on the concrete
two-escrow database the event for escrow "B" updates escrow "A"'s milestone
row while "B"'s own row stays pending. -/
theorem c9_unscoped_milestone_lookup :
    (∀ (db db' : Mirror.Db) (idx : Nat), db.milestones = db'.milestones →
      Mirror.findMilestone db idx = Mirror.findMilestone db' idx) ∧
    (∀ (db : Mirror.Db) (ev : Mirror.MilestoneEvent) (now : Nat)
        (e : Mirror.ERow) (m : Mirror.MRow),
      Mirror.findEscrow db ev.escrowId = some e →
      Mirror.findMilestone db ev.milestoneIdx = some m →
      Mirror.handleMilestoneSubmitted db ev now =
        Mirror.updateMilestoneRow db m.id (fun r =>
          { r with status := "submitted", submissionNote := some ev.note
                   submittedAt := some now })) ∧
    ((Mirror.findEscrow c9Db c9Ev.escrowId).map Mirror.ERow.id = some "B" ∧
     (Mirror.findMilestone c9Db c9Ev.milestoneIdx).map Mirror.MRow.escrowId = some "A" ∧
     (Mirror.handleMilestoneSubmitted c9Db c9Ev 10).statusOf "mA" = some "submitted" ∧
     (Mirror.handleMilestoneSubmitted c9Db c9Ev 10).statusOf "mB" = some "pending") := by
  refine ⟨?_, ?_, by decide⟩
  · intro db db' idx h
    unfold Mirror.findMilestone
    rw [h]
  · intro db ev now e m he hm
    unfold Mirror.handleMilestoneSubmitted
    rw [he, hm]

/-- C9 witness: the update-target part of the theorem applied to the
concrete two-escrow database. -/
theorem c9_unscoped_milestone_lookup_witness :
    Mirror.handleMilestoneSubmitted c9Db c9Ev 10 =
      Mirror.updateMilestoneRow c9Db "mA" (fun r =>
        { r with status := "submitted", submissionNote := some "done"
                 submittedAt := some (10 : Nat) }) := by
  exact c9_unscoped_milestone_lookup.2.1 c9Db c9Ev 10
    { id := "B", onChainId := some "20", txHash := some "0xb", status := "active" }
    { id := "mA", escrowId := "A", onChainId := some 0, status := "pending"
      submissionNote := none, submittedAt := none, approvedAt := none
      releasedAt := none }
    (by decide) (by decide)

/-! ## Dispute persistence lemmas (EVM) -/

theorem Evm.submitMilestone_dispute {c : Address} {mid : Nat} {n : String} {t : Nat}
    {st st' : Evm.EState} {outs : List Payout}
    (h : Evm.submitMilestone c mid n t st = .ok (st', outs)) :
    st'.dispute = st.dispute := by
  unfold Evm.submitMilestone at h
  repeat' split at h
  all_goals cases h <;> rfl

theorem Evm.approveMilestone_dispute {c : Address} {mid t : Nat}
    {st st' : Evm.EState} {outs : List Payout}
    (h : Evm.approveMilestone c mid t st = .ok (st', outs)) :
    st'.dispute = st.dispute := by
  unfold Evm.approveMilestone at h
  repeat' split at h
  all_goals cases h <;> rfl

theorem Evm.releaseMilestone_dispute {cfg : Evm.Config} {c : Address} {mid t : Nat}
    {st st' : Evm.EState} {outs : List Payout}
    (h : Evm.releaseMilestone cfg c mid t st = .ok (st', outs)) :
    st'.dispute = st.dispute := by
  unfold Evm.releaseMilestone at h
  repeat' split at h
  all_goals cases h <;> rw [Evm.checkEscrowCompletion_dispute]

theorem Evm.refundToClient_dispute {c : Address} {t : Nat}
    {st st' : Evm.EState} {outs : List Payout}
    (h : Evm.refundToClient c t st = .ok (st', outs)) :
    st'.dispute = st.dispute := by
  unfold Evm.refundToClient at h
  repeat' split at h
  all_goals cases h <;> rfl

theorem Evm.resolveDispute_initiatedAt {cfg : Evm.Config} {now : Nat}
    {st st' : Evm.EState} {outs : List Payout}
    (h : Evm.resolveDispute cfg now st = .ok (st', outs)) :
    st'.dispute.initiatedAt = st.dispute.initiatedAt := by
  unfold Evm.resolveDispute at h
  dsimp only at h
  repeat' split at h
  all_goals cases h <;> rw [Evm.checkEscrowCompletion_dispute]

theorem Evm.voteDispute_initiatedAt {cfg : Evm.Config} {c : Address} {b : Bool}
    {t : Nat} {st st' : Evm.EState} {outs : List Payout}
    (h : Evm.voteDispute cfg c b t st = .ok (st', outs)) :
    st'.dispute.initiatedAt = st.dispute.initiatedAt := by
  unfold Evm.voteDispute at h
  dsimp only at h
  repeat' split at h
  all_goals first
    | cases h <;> rfl
    | (have h2 := Evm.resolveDispute_initiatedAt h
       simpa using h2)

/-- `initiateDispute` can only succeed when no dispute has ever been
recorded (`disputes[escrowId].initiatedAt == 0`). -/
theorem Evm.initiateDispute_ok_imp {c : Address} {mid : Nat} {reason : String}
    {now : Nat} {st st' : Evm.EState} {outs : List Payout}
    (h : Evm.initiateDispute c mid reason now st = .ok (st', outs)) :
    st.dispute.initiatedAt = 0 := by
  unfold Evm.initiateDispute at h
  repeat' split at h
  all_goals cases h <;> omega

/-- Every entry point preserves the presence of a recorded dispute. -/
theorem Evm.runOp_dispute_nonzero (cfg : Evm.Config) (st : Evm.EState) (op : Evm.EOp)
    (h : st.dispute.initiatedAt ≠ 0) :
    (Evm.runOp cfg st op).dispute.initiatedAt ≠ 0 := by
  unfold Evm.runOp
  cases op with
  | submit c mid n t =>
    simp only [Evm.stepOp]
    split
    · rename_i st' snd heq
      rw [Evm.submitMilestone_dispute heq]
      exact h
    · exact h
  | approve c mid t =>
    simp only [Evm.stepOp]
    split
    · rename_i st' snd heq
      rw [Evm.approveMilestone_dispute heq]
      exact h
    · exact h
  | release c mid t =>
    simp only [Evm.stepOp]
    split
    · rename_i st' snd heq
      rw [Evm.releaseMilestone_dispute heq]
      exact h
    · exact h
  | openDispute c mid reason t =>
    simp only [Evm.stepOp]
    split
    · rename_i st' snd heq
      exact absurd (Evm.initiateDispute_ok_imp heq) h
    · exact h
  | vote c b t =>
    simp only [Evm.stepOp]
    split
    · rename_i st' snd heq
      rw [Evm.voteDispute_initiatedAt heq]
      exact h
    · exact h
  | refund c t =>
    simp only [Evm.stepOp]
    split
    · rename_i st' snd heq
      rw [Evm.refundToClient_dispute heq]
      exact h
    · exact h

theorem Evm.runOps_dispute_nonzero (cfg : Evm.Config) (st : Evm.EState)
    (ops : List Evm.EOp) (h : st.dispute.initiatedAt ≠ 0) :
    (Evm.runOps cfg st ops).dispute.initiatedAt ≠ 0 := by
  induction ops generalizing st with
  | nil => exact h
  | cons op rest ih => exact ih (Evm.runOp cfg st op) (Evm.runOp_dispute_nonzero cfg st op h)

/-- With a dispute on record, a permitted `initiateDispute` call reverts
with the dispute-exists error. -/
theorem Evm.initiateDispute_DisputeExists (c : Address) (mid : Nat) (reason : String)
    (now : Nat) (st : Evm.EState)
    (hparty : c = st.escrow.client ∨ c = st.escrow.freelancer)
    (hactive : st.escrow.status = .Active)
    (hmid : mid < st.milestones.length)
    (h : st.dispute.initiatedAt ≠ 0) :
    Evm.initiateDispute c mid reason now st = .error .DisputeExists := by
  unfold Evm.initiateDispute
  rw [if_neg (not_not_intro hparty), if_neg (not_not_intro hactive)]
  have hm : st.milestones[mid]? = some (st.milestones.get ⟨mid, hmid⟩) := by
    simp [List.getElem?_eq_getElem hmid]
  simp only [hm]
  rw [if_pos h]

/-! ## Dispute persistence lemmas (Sui) -/

theorem SuiM.submit_milestone_dispute {s : Address} {mid : Nat} {n : String} {t : Nat}
    {e e' : SuiM.SEscrow} {outs : List Payout}
    (h : SuiM.submit_milestone s mid n t e = .ok (e', outs)) :
    e'.dispute = e.dispute := by
  unfold SuiM.submit_milestone at h
  repeat' split at h
  all_goals cases h <;> rfl

theorem SuiM.approve_milestone_dispute {s : Address} {mid t : Nat}
    {e e' : SuiM.SEscrow} {outs : List Payout}
    (h : SuiM.approve_milestone s mid t e = .ok (e', outs)) :
    e'.dispute = e.dispute := by
  unfold SuiM.approve_milestone at h
  repeat' split at h
  all_goals cases h <;> rfl

theorem SuiM.release_milestone_dispute {cfg : SuiM.Config} {s : Address} {mid t : Nat}
    {e e' : SuiM.SEscrow} {outs : List Payout}
    (h : SuiM.release_milestone cfg s mid t e = .ok (e', outs)) :
    e'.dispute = e.dispute := by
  unfold SuiM.release_milestone at h
  dsimp only at h
  repeat' split at h
  all_goals cases h <;> rw [SuiM.check_escrow_completion_dispute]

theorem SuiM.refund_to_client_dispute {s : Address} {t : Nat}
    {e e' : SuiM.SEscrow} {outs : List Payout}
    (h : SuiM.refund_to_client s t e = .ok (e', outs)) :
    e'.dispute = e.dispute := by
  unfold SuiM.refund_to_client at h
  dsimp only at h
  repeat' split at h
  all_goals cases h <;> rfl

theorem SuiM.resolve_dispute_isSome {cfg : SuiM.Config} {now : Nat}
    {e e' : SuiM.SEscrow} {outs : List Payout}
    (h : SuiM.resolve_dispute_internal cfg now e = .ok (e', outs)) :
    e'.dispute.isSome = true := by
  unfold SuiM.resolve_dispute_internal at h
  dsimp only at h
  repeat' split at h
  all_goals (cases h <;> (rw [SuiM.check_escrow_completion_dispute]; rfl))

theorem SuiM.vote_dispute_isSome {cfg : SuiM.Config} {s : Address} {b : Bool}
    {t : Nat} {e e' : SuiM.SEscrow} {outs : List Payout}
    (h : SuiM.vote_dispute cfg s b t e = .ok (e', outs)) :
    e'.dispute.isSome = true := by
  unfold SuiM.vote_dispute at h
  dsimp only at h
  repeat' split at h
  all_goals first
    | cases h <;> rfl
    | exact SuiM.resolve_dispute_isSome h

/-- `initiate_dispute` can only succeed when the dispute Option is empty. -/
theorem SuiM.initiate_dispute_ok_imp {s : Address} {mid : Nat} {reason : String}
    {now : Nat} {e e' : SuiM.SEscrow} {outs : List Payout}
    (h : SuiM.initiate_dispute s mid reason now e = .ok (e', outs)) :
    e.dispute.isSome = false := by
  unfold SuiM.initiate_dispute at h
  repeat' split at h
  all_goals cases h <;> simp_all

/-- Every entry point preserves the presence of the dispute Option. -/
theorem SuiM.runOp_dispute_isSome (cfg : SuiM.Config) (e : SuiM.SEscrow) (op : SuiM.SOp)
    (h : e.dispute.isSome = true) :
    (SuiM.runOp cfg e op).dispute.isSome = true := by
  unfold SuiM.runOp
  cases op with
  | submit s mid n t =>
    simp only [SuiM.stepOp]
    split
    · rename_i e' snd heq
      rw [SuiM.submit_milestone_dispute heq]
      exact h
    · exact h
  | approve s mid t =>
    simp only [SuiM.stepOp]
    split
    · rename_i e' snd heq
      rw [SuiM.approve_milestone_dispute heq]
      exact h
    · exact h
  | release s mid t =>
    simp only [SuiM.stepOp]
    split
    · rename_i e' snd heq
      rw [SuiM.release_milestone_dispute heq]
      exact h
    · exact h
  | openDispute s mid reason t =>
    simp only [SuiM.stepOp]
    split
    · rename_i e' snd heq
      exact absurd (SuiM.initiate_dispute_ok_imp heq) (by simp [h])
    · exact h
  | vote s b t =>
    simp only [SuiM.stepOp]
    split
    · rename_i e' snd heq
      exact SuiM.vote_dispute_isSome heq
    · exact h
  | refund s t =>
    simp only [SuiM.stepOp]
    split
    · rename_i e' snd heq
      rw [SuiM.refund_to_client_dispute heq]
      exact h
    · exact h

theorem SuiM.runOps_dispute_isSome (cfg : SuiM.Config) (e : SuiM.SEscrow)
    (ops : List SuiM.SOp) (h : e.dispute.isSome = true) :
    (SuiM.runOps cfg e ops).dispute.isSome = true := by
  induction ops generalizing e with
  | nil => exact h
  | cons op rest ih => exact ih (SuiM.runOp cfg e op) (SuiM.runOp_dispute_isSome cfg e op h)

/-- With the dispute Option occupied, a permitted `initiate_dispute` call
aborts with `EEscrowAlreadyDisputed` (this guard precedes the milestone
bound check on Sui). -/
theorem SuiM.initiate_dispute_AlreadyDisputed (s : Address) (mid : Nat) (reason : String)
    (now : Nat) (e : SuiM.SEscrow)
    (hparty : s = e.client ∨ s = e.freelancer)
    (hactive : e.status = .Active)
    (h : e.dispute.isSome = true) :
    SuiM.initiate_dispute s mid reason now e = .error .EEscrowAlreadyDisputed := by
  unfold SuiM.initiate_dispute
  rw [if_neg (not_not_intro hparty), if_neg (not_not_intro hactive), if_pos h]

/-! ## C10 -/

/-- C10: on both chains a recorded dispute is never cleared: the EVM
`disputes[escrowId].initiatedAt` stays nonzero and the Sui
`escrow.dispute` Option stays occupied across every subsequent sequence of
operations (resolution included), so a later `initiateDispute` /
`initiate_dispute` can never succeed, and a permitted call fails with the
dispute-exists error — an escrow undergoes at most one dispute in its
lifetime. -/
theorem c10_dispute_never_cleared :
    (∀ (cfg : Evm.Config) (st : Evm.EState) (ops : List Evm.EOp),
      st.dispute.initiatedAt ≠ 0 →
      (Evm.runOps cfg st ops).dispute.initiatedAt ≠ 0 ∧
      (∀ (c : Address) (mid : Nat) (reason : String) (now : Nat)
          (r : Evm.EState × List Payout),
        Evm.initiateDispute c mid reason now (Evm.runOps cfg st ops) ≠ .ok r) ∧
      (∀ (c : Address) (mid : Nat) (reason : String) (now : Nat),
        (c = (Evm.runOps cfg st ops).escrow.client ∨
         c = (Evm.runOps cfg st ops).escrow.freelancer) →
        (Evm.runOps cfg st ops).escrow.status = .Active →
        mid < (Evm.runOps cfg st ops).milestones.length →
        Evm.initiateDispute c mid reason now (Evm.runOps cfg st ops)
          = .error .DisputeExists)) ∧
    (∀ (cfg : SuiM.Config) (e : SuiM.SEscrow) (ops : List SuiM.SOp),
      e.dispute.isSome = true →
      (SuiM.runOps cfg e ops).dispute.isSome = true ∧
      (∀ (s : Address) (mid : Nat) (reason : String) (now : Nat)
          (r : SuiM.SEscrow × List Payout),
        SuiM.initiate_dispute s mid reason now (SuiM.runOps cfg e ops) ≠ .ok r) ∧
      (∀ (s : Address) (mid : Nat) (reason : String) (now : Nat),
        (s = (SuiM.runOps cfg e ops).client ∨ s = (SuiM.runOps cfg e ops).freelancer) →
        (SuiM.runOps cfg e ops).status = .Active →
        SuiM.initiate_dispute s mid reason now (SuiM.runOps cfg e ops)
          = .error .EEscrowAlreadyDisputed)) := by
  constructor
  · intro cfg st ops h
    have hfin := Evm.runOps_dispute_nonzero cfg st ops h
    refine ⟨hfin, ?_, ?_⟩
    · intro c mid reason now r hok
      obtain ⟨st1, outs1⟩ := r
      exact hfin (Evm.initiateDispute_ok_imp hok)
    · intro c mid reason now hparty hactive hmid
      exact Evm.initiateDispute_DisputeExists c mid reason now _ hparty hactive hmid hfin
  · intro cfg e ops h
    have hfin := SuiM.runOps_dispute_isSome cfg e ops h
    refine ⟨hfin, ?_, ?_⟩
    · intro s mid reason now r hok
      obtain ⟨e1, outs1⟩ := r
      have h2 := SuiM.initiate_dispute_ok_imp hok
      simp [hfin] at h2
    · intro s mid reason now hparty hactive
      exact SuiM.initiate_dispute_AlreadyDisputed s mid reason now _ hparty hactive hfin

/-- C10 witness: starting from the Scenario-C state (dispute recorded at
time 50), after the resolving vote by arbiter 13 the client's attempt to
open a second dispute on milestone 2 fails with the dispute-exists error. -/
theorem c10_dispute_never_cleared_witness :
    (Evm.runOps c5Cfg c5St [.vote 13 false 62]).dispute.initiatedAt ≠ 0 ∧
    Evm.initiateDispute 1 2 "again" 70 (Evm.runOps c5Cfg c5St [.vote 13 false 62])
      = .error .DisputeExists := by
  have H := c10_dispute_never_cleared.1 c5Cfg c5St [.vote 13 false 62] (by decide)
  exact ⟨H.1, H.2.2 1 2 "again" 70 (by decide) (by decide) (by decide)⟩

end AccorDefi
